import Mathlib

/-!
Verification development for the idea-classification and document-synthesis
engine (`improveIdea` and its helpers) of the task-stunning repository.

The engine is a pure TypeScript function; we shallow-embed it here.
Strings are manipulated as `List Char` ("Chars").  JavaScript regular
expressions used by the engine are only ever used through `.test()` on the
lower-cased input, and each one is a disjunction of literal alternatives,
optionally with `\b` (ASCII word boundary), `\s?` / `\s*` (JS whitespace)
and trivial optional suffixes (`(ing)?`, `s?`), so each is embedded as a
decidable containment test built from the combinators below.

JS `toLowerCase` is embedded as ASCII case-mapping (`Char.toLower`): the
engine's vocabularies are ASCII and Arabic, on which the two coincide.
-/

namespace TaskStunning

abbrev Chars := List Char

/-- ASCII word character, the JS regex `\w` class used by `\b`. -/
def isWordChar (c : Char) : Bool :=
  ('a' ≤ c && c ≤ 'z') || ('A' ≤ c && c ≤ 'Z') || ('0' ≤ c && c ≤ '9') || c == '_'

/-- JS regex `\s` class (WhiteSpace ∪ LineTerminator), also used by `String.prototype.trim`. -/
def isJsWs (c : Char) : Bool :=
  c == ' ' || c == '\t' || c == '\n' || c == '\r' ||
  c.val == 0x0b || c.val == 0x0c || c.val == 0xa0 || c.val == 0x1680 ||
  (0x2000 ≤ c.val && c.val ≤ 0x200a) ||
  c.val == 0x2028 || c.val == 0x2029 || c.val == 0x202f || c.val == 0x205f ||
  c.val == 0x3000 || c.val == 0xfeff

/-- `pat` is a prefix of `hay`. -/
def listPrefixOf : Chars → Chars → Bool
  | [], _ => true
  | _ :: _, [] => false
  | a :: as, b :: bs => a == b && listPrefixOf as bs

/-- `pat` is a prefix of `hay`, and the character right after the match (if
any) is not a word character — the trailing `\b` of patterns like `pay\b`. -/
def prefixEndB : Chars → Chars → Bool
  | [], [] => true
  | [], c :: _ => !isWordChar c
  | _ :: _, [] => false
  | a :: as, b :: bs => a == b && prefixEndB as bs

/-- Substring containment, `hay` contains `pat` (the plain alternatives of
the engine's regexes, via `lower.includes(w)` or `w.test(lower)`). -/
def csContains (pat : Chars) : Chars → Bool
  | [] => pat.isEmpty
  | c :: cs => listPrefixOf pat (c :: cs) || csContains pat cs

/-- `pat` occurs in `hay` followed by a word boundary (`pat\b`). -/
def csContainsEndB (pat : Chars) : Chars → Bool
  | [] => prefixEndB pat []
  | c :: cs => prefixEndB pat (c :: cs) || csContainsEndB pat cs

/-- Auxiliary scan for `\bpat\b`: `prevWord` records whether the previous
character of the haystack was a word character. -/
def csWordAux (pat : Chars) : Bool → Chars → Bool
  | prevWord, [] => !prevWord && prefixEndB pat []
  | prevWord, c :: cs =>
      (!prevWord && prefixEndB pat (c :: cs)) || csWordAux pat (isWordChar c) cs

/-- `pat` occurs in `hay` as a whole word (`\bpat\b`). -/
def csContainsWord (pat hay : Chars) : Bool := csWordAux pat false hay

/-- The remainder of `hay` after prefix `pat`, when `pat` is a prefix. -/
def afterPrefix : Chars → Chars → Option Chars
  | [], hay => some hay
  | _ :: _, [] => none
  | a :: as, b :: bs => if a == b then afterPrefix as bs else none

/-- `rest` starts with `b`, or with one JS whitespace character then `b`
(the tail of `a\s?b`). -/
def startsWsOptThen (b : Chars) (rest : Chars) : Bool :=
  listPrefixOf b rest ||
    (match rest with
     | c :: cs => isJsWs c && listPrefixOf b cs
     | [] => false)

/-- `rest` starts with zero or more JS whitespace characters then `b`
(the tail of `a\s*b`). -/
def wsStarThen (b : Chars) : Chars → Bool
  | [] => b.isEmpty
  | c :: cs => listPrefixOf b (c :: cs) || (isJsWs c && wsStarThen b cs)

def prefixWsOpt (a b hay : Chars) : Bool :=
  match afterPrefix a hay with
  | some rest => startsWsOptThen b rest
  | none => false

def prefixWsStar (a b hay : Chars) : Bool :=
  match afterPrefix a hay with
  | some rest => wsStarThen b rest
  | none => false

/-- `a\s?b` occurs somewhere in `hay`. -/
def csContainsWsOpt (a b : Chars) : Chars → Bool
  | [] => prefixWsOpt a b []
  | c :: cs => prefixWsOpt a b (c :: cs) || csContainsWsOpt a b cs

/-- `a\s*b` occurs somewhere in `hay`. -/
def csContainsWsStar (a b : Chars) : Chars → Bool
  | [] => prefixWsStar a b []
  | c :: cs => prefixWsStar a b (c :: cs) || csContainsWsStar a b cs

/- Convenience wrappers taking the needle as a string literal. -/
def hasSub (hay : Chars) (s : String) : Bool := csContains s.toList hay
def hasEndB (hay : Chars) (s : String) : Bool := csContainsEndB s.toList hay
def hasWord (hay : Chars) (s : String) : Bool := csContainsWord s.toList hay
def hasWsOpt (hay : Chars) (a b : String) : Bool := csContainsWsOpt a.toList b.toList hay
def hasWsStar (hay : Chars) (a b : String) : Bool := csContainsWsStar a.toList b.toList hay

/-- JS `String.prototype.trim`. -/
def jsTrim (l : Chars) : Chars :=
  ((l.dropWhile isJsWs).reverse.dropWhile isJsWs).reverse

/-- JS UTF-16 `.length` of a string held as code points. -/
def utf16Len (l : Chars) : Nat :=
  l.foldl (fun n c => n + (if c.val ≥ 0x10000 then 2 else 1)) 0

/-- First `n` UTF-16 units (JS `.slice(0, n)`); a code point that would be
split in half by the cut is dropped (the engine's inputs are BMP text, where
no such split arises). -/
def utf16Take : Nat → Chars → Chars
  | _, [] => []
  | n, c :: cs =>
      let w := if c.val ≥ 0x10000 then 2 else 1
      if w ≤ n then c :: utf16Take (n - w) cs else []

/-- JS `.replace(/\s+/g, " ")`: collapse each whitespace run to one space. -/
def collapseWs : Bool → Chars → Chars
  | _, [] => []
  | inRun, c :: cs =>
      if isJsWs c then
        if inRun then collapseWs true cs else ' ' :: collapseWs true cs
      else c :: collapseWs false cs

/-- Number of words, JS `idea.split(/\s+/).filter(Boolean).length`:
the number of maximal non-whitespace runs. -/
def countWords : Bool → Chars → Nat
  | _, [] => 0
  | inWord, c :: cs =>
      if isJsWs c then countWords false cs
      else (if inWord then 0 else 1) + countWords true cs

/-! ## JS array/set idioms used by the engine -/

/-- Append `x` unless already present — the engine's
`if (!xs.includes(x)) xs.push(x)` idiom. -/
def pushNew (xs : List String) (x : String) : List String :=
  if xs.contains x then xs else xs ++ [x]

/-- `Array.from(new Set(xs))`: first-occurrence-preserving deduplication
(JS `Set` keeps insertion order, first occurrence wins). -/
def jsSetDedup (xs : List String) : List String := xs.foldl pushNew []

/-- One step of the engine's hint-append loops:
`if (x && !xs.includes(x)) xs.push(x)` — a falsy (empty) string is skipped. -/
def addHint (xs : List String) (x : String) : List String :=
  if x != "" && !xs.contains x then xs ++ [x] else xs

/-- The engine's hint-append loop over a whole hint array. -/
def addHints (xs hs : List String) : List String := hs.foldl addHint xs

/-! ## Site types -/

inductive SiteType
  | saas | ecommerce | portfolio | restaurant | blog | event | booking | generic
deriving DecidableEq, Repr

/-- The `allowed` list check plus the assignment `siteType = t` for a
hint value already lower-cased (source lines 167–173). -/
def parseSiteType : String → Option SiteType
  | "saas" => some .saas
  | "ecommerce" => some .ecommerce
  | "portfolio" => some .portfolio
  | "restaurant" => some .restaurant
  | "blog" => some .blog
  | "event" => some .event
  | "booking" => some .booking
  | "generic" => some .generic
  | _ => none

/-! ## Classifier vocabulary (from the source, in source order) -/

/-- `/saas|subscription|b2b|b2c|سوفت\s?وير|خدمة\s?سحابية/` -/
def saasPat (l : Chars) : Bool :=
  hasSub l "saas" || hasSub l "subscription" || hasSub l "b2b" || hasSub l "b2c" ||
  hasWsOpt l "سوفت" "وير" || hasWsOpt l "خدمة" "سحابية"

/-- `/shop|store|ecommerce|checkout|cart|sell|buy|product|متجر|سلة|عربة|شراء|بيع|منتج|الدفع|تسوق/` -/
def ecomPat (l : Chars) : Bool :=
  hasSub l "shop" || hasSub l "store" || hasSub l "ecommerce" || hasSub l "checkout" ||
  hasSub l "cart" || hasSub l "sell" || hasSub l "buy" || hasSub l "product" ||
  hasSub l "متجر" || hasSub l "سلة" || hasSub l "عربة" || hasSub l "شراء" ||
  hasSub l "بيع" || hasSub l "منتج" || hasSub l "الدفع" || hasSub l "تسوق"

/-- `/portfolio|case study|case studies|work|dribbble|behance|photograph|أعمال|معرض|اعمالي|سيرة/` -/
def portfolioPat (l : Chars) : Bool :=
  hasSub l "portfolio" || hasSub l "case study" || hasSub l "case studies" ||
  hasSub l "work" || hasSub l "dribbble" || hasSub l "behance" || hasSub l "photograph" ||
  hasSub l "أعمال" || hasSub l "معرض" || hasSub l "اعمالي" || hasSub l "سيرة"

/-- `/restaurant|cafe|menu|reservation|reservations|booking|مطعم|قائمة|حجز|حجوزات/` -/
def restaurantPat (l : Chars) : Bool :=
  hasSub l "restaurant" || hasSub l "cafe" || hasSub l "menu" || hasSub l "reservation" ||
  hasSub l "reservations" || hasSub l "booking" ||
  hasSub l "مطعم" || hasSub l "قائمة" || hasSub l "حجز" || hasSub l "حجوزات"

/-- `/blog|articles|news|magazine|post\b|مدونة|مقالات|أخبار/` -/
def blogPat (l : Chars) : Bool :=
  hasSub l "blog" || hasSub l "articles" || hasSub l "news" || hasSub l "magazine" ||
  hasEndB l "post" || hasSub l "مدونة" || hasSub l "مقالات" || hasSub l "أخبار"

/-- `/event|conference|meetup|summit|webinar|launch|فعالية|مؤتمر|ندوة|قمة|ورشة/` -/
def eventPat (l : Chars) : Bool :=
  hasSub l "event" || hasSub l "conference" || hasSub l "meetup" || hasSub l "summit" ||
  hasSub l "webinar" || hasSub l "launch" ||
  hasSub l "فعالية" || hasSub l "مؤتمر" || hasSub l "ندوة" || hasSub l "قمة" || hasSub l "ورشة"

/-- `/book(ing)?|schedule|calendar|appointment|حجز|موعد|جدولة|تقويم/`
(`book(ing)?` matches exactly when `book` occurs). -/
def bookingPat (l : Chars) : Bool :=
  hasSub l "book" || hasSub l "schedule" || hasSub l "calendar" || hasSub l "appointment" ||
  hasSub l "حجز" || hasSub l "موعد" || hasSub l "جدولة" || hasSub l "تقويم"

/-- Site-type detection: the ordered conditional chain of source lines
158–165, first match wins, `generic` when nothing matches. -/
def classifySiteType (l : Chars) : SiteType :=
  if saasPat l then .saas
  else if ecomPat l then .ecommerce
  else if portfolioPat l then .portfolio
  else if restaurantPat l then .restaurant
  else if blogPat l then .blog
  else if eventPat l then .event
  else if bookingPat l then .booking
  else .generic

/-- `/project|مشروع|mvp|scope|requirements?|spec|brief|proposal|plan|timeline|milestones?|deliverables?/`
(the `s?` suffixes match exactly when the singular occurs). -/
def projectPat (l : Chars) : Bool :=
  hasSub l "project" || hasSub l "مشروع" || hasSub l "mvp" || hasSub l "scope" ||
  hasSub l "requirement" || hasSub l "spec" || hasSub l "brief" || hasSub l "proposal" ||
  hasSub l "plan" || hasSub l "timeline" || hasSub l "milestone" || hasSub l "deliverable"

/-- `/payment|pay\b|checkout|stripe|paypal|paymob|fawry|mada|tabby|tamara/` -/
def paymentsPat (l : Chars) : Bool :=
  hasSub l "payment" || hasEndB l "pay" || hasSub l "checkout" || hasSub l "stripe" ||
  hasSub l "paypal" || hasSub l "paymob" || hasSub l "fawry" || hasSub l "mada" ||
  hasSub l "tabby" || hasSub l "tamara"

/-- `/arabic|عرب|عربي|rtl|\bar\b/` -/
def usesArabicPat (l : Chars) : Bool :=
  hasSub l "arabic" || hasSub l "عرب" || hasSub l "عربي" || hasSub l "rtl" || hasWord l "ar"

/-- The `audienceHints` keyword → label object, in source (insertion) order. -/
def audienceTable : List (String × String) := [
  ("designer", "Designers"), ("designers", "Designers"),
  ("مصمم", "Designers"), ("مصممين", "Designers"),
  ("developer", "Developers"), ("developers", "Developers"),
  ("مطور", "Developers"), ("المطورين", "Developers"),
  ("student", "Students"), ("students", "Students"),
  ("طالب", "Students"), ("طلاب", "Students"),
  ("photographer", "Photographers"), ("photographers", "Photographers"),
  ("مصور", "Photographers"), ("المصورين", "Photographers"),
  ("restaurant", "Local diners and food lovers"), ("restaurants", "Local diners and food lovers"),
  ("مطعم", "Local diners and food lovers"), ("مطاعم", "Local diners and food lovers"),
  ("nonprofit", "Donors and volunteers"), ("nonprofits", "Donors and volunteers"),
  ("جمعية", "Donors and volunteers"), ("جمعيات", "Donors and volunteers"),
  ("startup", "Early adopters and investors"), ("startups", "Early adopters and investors"),
  ("ناشئة", "Early adopters and investors"), ("ستارت اب", "Early adopters and investors"),
  ("ecommerce", "Online shoppers"), ("shop", "Online shoppers"),
  ("shoppers", "Online shoppers"), ("متجر", "Online shoppers"),
  ("متسوقين", "Online shoppers"),
  ("parents", "Parents"), ("أولياء الأمور", "Parents"),
  ("teachers", "Teachers"), ("معلمين", "Teachers"),
  ("fitness", "Fitness enthusiasts"), ("لياقة", "Fitness enthusiasts"),
  ("realty", "Home buyers and sellers"), ("realestate", "Home buyers and sellers"),
  ("realtor", "Home buyers and sellers"), ("عقارات", "Home buyers and sellers"),
  ("b2b", "Business decision-makers"),
  ("small", "Small business owners"), ("مشروع صغير", "Small business owners")]

/-- The tone keyword tests of source lines 180–186, in order. -/
def toneTable : List ((Chars → Bool) × String) := [
  (fun l => hasSub l "playful" || hasSub l "مرح" || hasSub l "مرِح", "playful"),
  (fun l => hasSub l "minimal" || hasSub l "بسيط" || hasSub l "مبسّط", "minimal"),
  (fun l => hasSub l "luxury" || hasSub l "premium" || hasSub l "فاخر" || hasSub l "فخم", "premium"),
  (fun l => hasSub l "bold" || hasSub l "جريء", "bold"),
  (fun l => hasSub l "friendly" || hasSub l "ودود" || hasSub l "لطيف", "friendly"),
  (fun l => hasSub l "confident" || hasSub l "واثق", "confident"),
  (fun l => hasSub l "concise" || hasSub l "موجز", "concise")]

/-- The `featureMap` pattern → label pairs, in source order. -/
def featureTable : List ((Chars → Bool) × String) := [
  (fun l => hasSub l "pricing" || hasSub l "plans" || hasSub l "tiers" ||
            hasSub l "سعر" || hasSub l "الأسعار" || hasSub l "الخطط",
   "Pricing with clear plan comparison"),
  (fun l => hasSub l "faq" || hasSub l "questions" || hasSub l "أسئلة" ||
            hasWsStar l "الأسئلة" "الشائعة",
   "FAQ"),
  (fun l => hasSub l "blog" || hasSub l "article" || hasSub l "news" ||
            hasSub l "مدونة" || hasSub l "مقال" || hasSub l "أخبار",
   "Blog"),
  (fun l => hasSub l "newsletter" || hasSub l "subscribe" || hasSub l "email list" ||
            hasSub l "النشرة" || hasSub l "اشترك" || hasWsStar l "قائمة" "بريد",
   "Newsletter signup"),
  (fun l => hasSub l "testimonials" || hasSub l "reviews" || hasSub l "quotes" ||
            hasSub l "آراء" || hasSub l "تقييمات" || hasSub l "شهادات",
   "Testimonials"),
  (fun l => hasSub l "contact" || hasSub l "support" || hasSub l "help" ||
            hasSub l "اتصل" || hasSub l "دعم" || hasSub l "مساعدة",
   "Contact form"),
  (fun l => hasSub l "demo" || hasSub l "trial" || hasSub l "free trial" ||
            hasSub l "تجربة" || hasSub l "عرض",
   "Free trial / demo request"),
  (fun l => hasSub l "login" || hasSub l "signup" || hasSub l "account" ||
            hasSub l "دخول" || hasSub l "تسجيل" || hasSub l "حساب",
   "Authentication (sign up / log in)"),
  (fun l => hasSub l "checkout" || hasSub l "cart" || hasSub l "buy" || hasSub l "sell" ||
            hasSub l "product" || hasSub l "الدفع" || hasSub l "سلة" || hasSub l "شراء" ||
            hasSub l "بيع" || hasSub l "منتج",
   "E-commerce checkout"),
  (fun l => hasSub l "booking" || hasSub l "schedule" || hasSub l "calendar" ||
            hasSub l "appointment" || hasSub l "reservation" ||
            hasSub l "حجز" || hasSub l "موعد" || hasSub l "جدولة" || hasSub l "تقويم",
   "Booking / scheduling"),
  (fun l => hasSub l "search" || hasSub l "بحث", "Site search")]

/-- The `industryMap` pattern → label pairs, in source order. -/
def industryTable : List ((Chars → Bool) × String) := [
  (fun l => hasSub l "health" || hasSub l "clinic" || hasSub l "hospital" ||
            hasSub l "medic" || hasSub l "pharma", "Healthcare"),
  (fun l => hasSub l "fintech" || hasSub l "bank" || hasSub l "payment" || hasSub l "wallet" ||
            hasSub l "loan" || hasSub l "finance" || hasSub l "insur", "Fintech"),
  (fun l => hasSub l "education" || hasSub l "school" || hasSub l "university" ||
            hasSub l "course" || hasSub l "learning" || hasSub l "edtech" ||
            hasSub l "teacher" || hasSub l "student", "Education"),
  (fun l => hasWsOpt l "real" "estate" || hasSub l "realty" || hasSub l "realtor" ||
            hasSub l "property", "Real Estate"),
  (fun l => hasSub l "travel" || hasSub l "tour" || hasSub l "flight" || hasSub l "hotel" ||
            hasSub l "booking" || hasSub l "trip" || hasSub l "tourism", "Travel"),
  (fun l => hasSub l "ngo" || hasSub l "nonprofit" || hasSub l "charity" ||
            hasSub l "donor" || hasSub l "volunteer", "Nonprofit"),
  (fun l => hasSub l "food" || hasSub l "restaurant" || hasSub l "cafe" || hasSub l "menu" ||
            hasSub l "delivery" || hasSub l "kitchen", "Food & Beverage"),
  (fun l => hasSub l "photograph" || hasSub l "photo" || hasSub l "gallery" ||
            hasSub l "camera", "Photography"),
  (fun l => hasSub l "ecommerce" || hasSub l "shop" || hasSub l "store" ||
            hasSub l "product" || hasSub l "cart" || hasSub l "checkout", "E‑commerce"),
  (fun l => hasSub l "saas" || hasSub l "software" || hasSub l "b2b" || hasSub l "b2c",
   "Software"),
  (fun l => hasSub l "event" || hasSub l "conference" || hasSub l "webinar" ||
            hasSub l "summit", "Events")]

/-- The `regionMap` pattern → label pairs, in source order (all alternatives
are Latin-script keywords). -/
def regionTable : List ((Chars → Bool) × String) := [
  (fun l => hasSub l "egypt" || hasSub l "egy" || hasEndB l "eg" || hasSub l "cairo" ||
            hasSub l "giza" || hasSub l "alex", "Egypt"),
  (fun l => hasSub l "ksa" || hasSub l "saudi" || hasSub l "riyadh" || hasSub l "jeddah" ||
            hasSub l "jedah" || hasEndB l "sa", "Saudi Arabia"),
  (fun l => hasSub l "uae" || hasSub l "dubai" || hasWsOpt l "abu" "dhabi" ||
            hasEndB l "ae" || hasSub l "emirates", "UAE"),
  (fun l => hasSub l "morocco" || hasEndB l "ma" || hasSub l "casablanca" ||
            hasSub l "rabat", "Morocco"),
  (fun l => hasSub l "tunisia" || hasEndB l "tn" || hasSub l "tunis", "Tunisia"),
  (fun l => hasSub l "algeria" || hasEndB l "dz" || hasSub l "algiers", "Algeria"),
  (fun l => hasSub l "jordan" || hasEndB l "jo" || hasSub l "amman", "Jordan"),
  (fun l => hasSub l "iraq" || hasEndB l "iq" || hasSub l "baghdad", "Iraq"),
  (fun l => hasSub l "usa" || hasSub l "united states" || hasEndB l "us" ||
            hasSub l "america", "USA"),
  (fun l => hasSub l "uk" || hasSub l "united kingdom" || hasSub l "london" ||
            hasEndB l "gb" || hasSub l "great britain", "UK"),
  (fun l => hasSub l "europe" || hasEndB l "eu", "Europe"),
  (fun l => hasSub l "global" || hasSub l "worldwide" || hasSub l "international", "Global")]

/-- The `currencyHints` pattern → code pairs, in source order
(first match wins). -/
def currencyTable : List ((Chars → Bool) × String) := [
  (fun l => hasSub l "egp" || hasSub l "جنيه" || hasSub l "egypt" || hasSub l "egy", "EGP"),
  (fun l => hasSub l "sar" || hasSub l "ريال" || hasSub l "ksa" || hasSub l "saudi", "SAR"),
  (fun l => hasSub l "aed" || hasSub l "درهم" || hasSub l "uae" || hasSub l "dubai", "AED"),
  (fun l => hasSub l "usd" || hasSub l "dollar" || hasSub l "usa" || hasEndB l "us", "USD"),
  (fun l => hasSub l "eur" || hasSub l "euro", "EUR"),
  (fun l => hasSub l "gbp" || hasSub l "pound" || hasSub l "uk" || hasSub l "sterling", "GBP")]

/-- The compliance keyword tests of source lines 559–562, in order. -/
def complianceTable : List ((Chars → Bool) × String) := [
  (fun l => hasSub l "gdpr", "GDPR"),
  (fun l => hasSub l "hipaa", "HIPAA"),
  (fun l => hasSub l "pci", "PCI DSS"),
  (fun l => hasWsStar l "soc" "2" || hasSub l "soc2", "SOC 2")]

/-! ## Default tables keyed by site type -/

def defaultFeaturesByType : SiteType → List String
  | .saas => ["Hero with value proposition and primary CTA", "Feature highlights",
      "Social proof and testimonials", "Pricing plans", "FAQ", "Footer with legal links"]
  | .ecommerce => ["Featured products grid", "Product detail pages", "Cart and checkout",
      "Trust badges and reviews", "Newsletter signup"]
  | .portfolio => ["Selected work/gallery", "About and services", "Testimonials",
      "Contact form", "Simple blog (optional)"]
  | .restaurant => ["Hero with signature dish", "Menu", "Reservations / booking",
      "Location, hours, and map", "Photo gallery"]
  | .blog => ["Latest posts", "Categories and tags", "Author bio", "Newsletter signup",
      "Search"]
  | .event => ["Event overview", "Agenda / schedule", "Speakers", "Tickets / registration",
      "FAQ"]
  | .booking => ["Service overview", "Calendar and availability", "Pricing", "Testimonials",
      "Contact"]
  | .generic => ["Hero with value proposition", "Problem / solution", "Key features",
      "Social proof", "Primary CTA"]

def sectionsByType : SiteType → List String
  | .saas => ["Hero", "Problem", "Solution", "Features", "Testimonials", "Pricing", "FAQ", "Footer"]
  | .ecommerce => ["Hero", "Featured Products", "Collections", "Product Detail", "Cart / Checkout", "Footer"]
  | .portfolio => ["Hero", "Selected Work", "About", "Services", "Testimonials", "Contact"]
  | .restaurant => ["Hero", "Menu", "Gallery", "Reservations", "Location & Hours", "Contact"]
  | .blog => ["Hero", "Latest Posts", "Categories", "Featured Post", "About", "Newsletter"]
  | .event => ["Hero", "About Event", "Agenda", "Speakers", "Tickets", "FAQ"]
  | .booking => ["Hero", "Services", "Availability", "Pricing", "Testimonials", "Contact"]
  | .generic => ["Hero", "Benefits", "Features", "Social Proof", "CTA"]

def typeLabel : SiteType → String
  | .saas => "SaaS marketing site"
  | .ecommerce => "E‑commerce store"
  | .portfolio => "Portfolio site"
  | .restaurant => "Restaurant site"
  | .blog => "Blog / content hub"
  | .event => "Event landing page"
  | .booking => "Booking site"
  | .generic => "Landing page"

def typeLabelAr : SiteType → String
  | .saas => "موقع تسويقي لخدمة سحابية"
  | .ecommerce => "متجر إلكتروني"
  | .portfolio => "موقع أعمال/معرض"
  | .restaurant => "موقع مطعم"
  | .blog => "مدونة / مركز محتوى"
  | .event => "صفحة هبوط لفعالية"
  | .booking => "موقع حجوزات"
  | .generic => "صفحة هبوط"

def pagesByType : SiteType → List String
  | .saas => ["Home","Features","Pricing","Docs","Changelog","Blog","About","Contact","Login","Sign up","Dashboard"]
  | .ecommerce => ["Home","Shop","Collections","Product","Cart","Checkout","Account","Orders","Wishlist","Support","Blog"]
  | .portfolio => ["Home","Work","About","Services","Testimonials","Contact","Blog"]
  | .restaurant => ["Home","Menu","Reservations","Gallery","Location & Hours","About","Contact"]
  | .blog => ["Home","Blog","Post","Categories","About","Contact","Newsletter"]
  | .event => ["Home","About Event","Agenda","Speakers","Tickets","FAQ","Venue","Contact"]
  | .booking => ["Home","Services","Availability","Pricing","Book","Account","Contact","FAQ"]
  | .generic => ["Home","About","Features","Pricing","Contact","Blog"]

def userStoriesBase : List String := [
  "As a visitor, I understand the value within 5 seconds",
  "As a visitor, I can complete the primary CTA easily",
  "As a visitor, I can trust the product via social proof"]

def userStoriesByType : SiteType → List String
  | .saas => ["As a user, I can start a free trial","As a user, I can manage my plan and billing",
      "As a user, I can reset my password","As an admin, I can see key metrics in the dashboard"]
  | .ecommerce => ["As a shopper, I can browse and filter products","As a shopper, I can add items to cart",
      "As a shopper, I can checkout and pay securely","As a user, I can view my orders"]
  | .portfolio => ["As a client, I can view selected work","As a client, I can contact for a quote"]
  | .restaurant => ["As a guest, I can view the menu","As a guest, I can book a table",
      "As a guest, I can see location and hours"]
  | .blog => ["As a reader, I can read and search posts","As a reader, I can subscribe to the newsletter"]
  | .event => ["As an attendee, I can view agenda and speakers",
      "As an attendee, I can buy tickets and receive confirmation"]
  | .booking => ["As a client, I can view availability",
      "As a client, I can book, reschedule, or cancel appointments"]
  | .generic => []

def kpisByType : SiteType → List String
  | .saas => ["Signup conversion rate","Activation rate","Upgrade rate"]
  | .ecommerce => ["Add-to-cart rate","Checkout completion rate","Average order value"]
  | .portfolio => ["Contact inquiries","Proposal acceptance rate"]
  | .restaurant => ["Reservation completion rate","Menu views"]
  | .blog => ["Newsletter signups","Time on page"]
  | .event => ["Ticket sales","Registration conversion"]
  | .booking => ["Booking completion rate","No-show rate"]
  | .generic => ["Primary CTA conversion"]

def contentChecklistBase : List String := [
  "Clear headline and subheadline",
  "Value proposition and benefits",
  "High-quality visuals or screenshots",
  "Social proof: logos, testimonials, ratings",
  "Pricing and plans (if applicable)",
  "FAQ and contact methods"]

def milestonesBase : List String := [
  "MVP skeleton (layout, navigation, theming)",
  "Core flows implemented",
  "Content integration and SEO",
  "QA: accessibility and performance",
  "Launch and analytics instrumentation"]

def personasBase : List String := ["Visitor/Evaluator","Buyer/Decision-maker","Admin/Owner"]

def techBaseline : List String := [
  "Next.js 14+", "React", "TypeScript", "Tailwind CSS", "shadcn/ui",
  "Prisma + PostgreSQL", "NextAuth or similar", "Vercel or similar hosting"]

/-! ## Bilingual lookup tables (English key, Arabic value; missing key
falls back to the English key) -/

def lookupOr (table : List (String × String)) (k : String) : String :=
  match table.find? (fun p => p.1 == k) with
  | some p => p.2
  | none => k

def secArTable : List (String × String) := [
  ("Hero", "الرئيسية"), ("Problem", "المشكلة"), ("Solution", "الحل"),
  ("Features", "الميزات"), ("Testimonials", "آراء العملاء"), ("Pricing", "الأسعار"),
  ("FAQ", "الأسئلة الشائعة"), ("Footer", "التذييل"),
  ("Featured Products", "منتجات مميزة"), ("Collections", "التصنيفات"),
  ("Product Detail", "تفاصيل المنتج"), ("Cart / Checkout", "السلة / الدفع"),
  ("Selected Work", "أعمال مختارة"), ("About", "من نحن"), ("Services", "الخدمات"),
  ("Contact", "اتصل بنا"), ("Menu", "القائمة"), ("Gallery", "معرض الصور"),
  ("Reservations", "الحجوزات"), ("Location & Hours", "الموقع وساعات العمل"),
  ("Latest Posts", "أحدث المقالات"), ("Categories", "التصنيفات"),
  ("Featured Post", "مقال مميز"), ("Newsletter", "النشرة البريدية"),
  ("About Event", "عن الفعالية"), ("Agenda", "الجدول"), ("Speakers", "المتحدثون"),
  ("Tickets", "التذاكر"), ("Benefits", "الفوائد"), ("CTA", "دعوة للإجراء")]

def audienceArTable : List (String × String) := [
  ("Designers", "المصممون"), ("Developers", "المطورون"), ("Students", "الطلاب"),
  ("Photographers", "المصورون"),
  ("Local diners and food lovers", "عشاق الطعام ورواد المطاعم"),
  ("Donors and volunteers", "المتبرعون والمتطوعون"),
  ("Early adopters and investors", "المتبنون الأوائل والمستثمرون"),
  ("Online shoppers", "المتسوقون عبر الإنترنت"),
  ("Parents", "أولياء الأمور"), ("Teachers", "المعلمون"),
  ("Fitness enthusiasts", "مهتمو اللياقة"),
  ("Home buyers and sellers", "البائعون والمشترون للعقارات"),
  ("Business decision-makers", "صنّاع القرار في الأعمال"),
  ("Small business owners", "أصحاب المشاريع الصغيرة"),
  ("Prospective customers and early adopters", "العملاء المحتملون والمبكرون")]

def toneArTable : List (String × String) := [
  ("playful", "مرح"), ("minimal", "بسيط"), ("premium", "فاخر"), ("bold", "جريء"),
  ("friendly", "ودود"), ("confident", "واثق"), ("concise", "موجز")]

/-- The `H` heading map of source lines 379–405. -/
def headingArTable : List (String × String) := [
  ("Project overview", "نظرة عامة على المشروع"),
  ("Target audience", "الجمهور المستهدف"),
  ("Primary goals", "الأهداف الرئيسية"),
  ("Tone & voice", "النبرة والأسلوب"),
  ("Suggested site structure", "هيكل الموقع المقترح"),
  ("Key features", "الميزات الأساسية"),
  ("Content & CTAs", "المحتوى والدعوات للإجراء"),
  ("Visual style", "الأسلوب البصري"),
  ("Notes from the original idea", "ملاحظات من الفكرة الأصلية"),
  ("Project blueprint", "مخطط المشروع"),
  ("Scope", "النطاق"),
  ("Pages & sitemap", "الصفحات وخريطة الموقع"),
  ("User stories", "قصص المستخدم"),
  ("Non-functional requirements", "متطلبات غير وظيفية"),
  ("KPIs", "المؤشرات الرئيسية"),
  ("Tech stack suggestions", "اقتراح التكديس التقني"),
  ("Content checklist", "قائمة المحتوى"),
  ("Milestones", "المعالم"),
  ("Questions to clarify", "أسئلة توضيحية")]

/-! ## Hints

The `ImproveHints` object after zod validation.  Array-valued fields are
embedded as plain lists (an absent field and an empty array drive the
hint-append loops identically); scalar fields keep their optionality.
`siteType` is kept as a raw string because the engine re-validates it
against the `allowed` enumeration itself. -/

structure ImproveHints where
  audience : List String := []
  siteType : Option String := none
  tone : List String := []
  features : List String := []
  industries : List String := []
  regions : List String := []
  languages : List String := []
  currency : Option String := none
  pages : List String := []
  requiresPayments : Option Bool := none
  compliance : List String := []
  kpis : List String := []
  userStories : List String := []
  tech : List String := []
  contentChecklist : List String := []
  milestones : List String := []
  personas : List String := []
  projectMode : Option Bool := none
  outputLang : Option String := none
deriving Repr, DecidableEq

def noHints : ImproveHints := {}

/-! ## The classification / merge pipeline, field by field.

Every function below takes `l`, the trimmed and lower-cased input
(`lower` in the source), and where relevant the hint object, and mirrors
the corresponding block of `improveIdea`. -/

/-- The normalized text: `(raw || "").trim()` then `.toLowerCase()`. -/
def normLower (raw : String) : Chars := (jsTrim raw.toList).map Char.toLower

/-- `lang`: `hints?.outputLang === "ar" ? "ar" : "en"`. -/
def langOf (h : ImproveHints) : String :=
  if h.outputLang == some "ar" then "ar" else "en"

/-- Audience before hints: matched labels, fallback sentinel, `Set` dedup
(source lines 137–141). -/
def audienceBase (l : Chars) : List String :=
  let matched := (audienceTable.filter (fun p => hasSub l p.1)).map (·.2)
  let a := if matched.isEmpty then ["Prospective customers and early adopters"] else matched
  jsSetDedup a

def audienceFinal (l : Chars) (h : ImproveHints) : List String :=
  addHints (audienceBase l) h.audience

/-- Tone before hints (source lines 179–187). -/
def toneBase (l : Chars) : List String :=
  let t := (toneTable.filter (fun p => p.1 l)).map (·.2)
  if t.isEmpty then ["friendly", "confident", "concise"] else t

def toneFinal (l : Chars) (h : ImproveHints) : List String :=
  addHints (toneBase l) h.tone

/-- Detected features before hints (source lines 208–214). -/
def featuresBase (l : Chars) : List String :=
  jsSetDedup ((featureTable.filter (fun p => p.1 l)).map (·.2))

/-- The `features` array after the hint-append loop (source lines
215–219); this is what the engine later exposes as `detectedFeatures`. -/
def featuresFinal (l : Chars) (h : ImproveHints) : List String :=
  addHints (featuresBase l) h.features

/-- Site type after the hint override (source lines 158–173). -/
def siteTypeFinal (l : Chars) (h : ImproveHints) : SiteType :=
  match h.siteType with
  | none => classifySiteType l
  | some s =>
      match parseSiteType (String.mk (s.toList.map Char.toLower)) with
      | some t => t
      | none => classifySiteType l

/-- Project mode after the hint (source lines 166, 174–176): the hint can
only force `true`, a `false` hint leaves the text-derived value. -/
def projectModeFinal (l : Chars) (h : ImproveHints) : Bool :=
  projectPat l || h.projectMode == some true

/-- `selectedFeatures` (source lines 306–309); computed after the feature
hints were pushed into `features`. -/
def selectedFeaturesOf (l : Chars) (h : ImproveHints) : List String :=
  jsSetDedup (defaultFeaturesByType (siteTypeFinal l h) ++ featuresFinal l h)

/-- Industries before hints (source lines 485–499). -/
def industriesBase (l : Chars) : List String :=
  let i := jsSetDedup ((industryTable.filter (fun p => p.1 l)).map (·.2))
  if i.isEmpty then ["General"] else i

def industriesFinal (l : Chars) (h : ImproveHints) : List String :=
  addHints (industriesBase l) h.industries

/-- Languages before hints (source lines 506–507). -/
def languagesBase (l : Chars) : List String :=
  jsSetDedup (if usesArabicPat l then ["Arabic", "English"] else ["English"])

def languagesFinal (l : Chars) (h : ImproveHints) : List String :=
  addHints (languagesBase l) h.languages

/-- Regions before hints (source lines 514–529). -/
def regionsBase (l : Chars) : List String :=
  let r := jsSetDedup ((regionTable.filter (fun p => p.1 l)).map (·.2))
  if r.isEmpty then ["Global"] else r

def regionsFinal (l : Chars) (h : ImproveHints) : List String :=
  addHints (regionsBase l) h.regions

/-- Currency before hints: first matching pattern wins, default `"USD"`
(source lines 536–550). -/
def currencyBase (l : Chars) : String :=
  match currencyTable.find? (fun p => p.1 l) with
  | some p => p.2
  | none => "USD"

/-- `if (hints?.currency) currency = String(hints.currency)` — a truthy
(non-empty) currency hint replaces the classified value. -/
def currencyFinal (l : Chars) (h : ImproveHints) : String :=
  match h.currency with
  | some c => if c != "" then c else currencyBase l
  | none => currencyBase l

/-- `requiresPayments` before the hint (source line 555); note it reads the
`features` array, which already contains the hinted features. -/
def requiresPaymentsDetected (l : Chars) (h : ImproveHints) : Bool :=
  (featuresFinal l h).contains "E-commerce checkout" || paymentsPat l

/-- `Boolean(hints?.requiresPayments ?? requiresPayments)` (source line 556). -/
def requiresPaymentsFinal (l : Chars) (h : ImproveHints) : Bool :=
  match h.requiresPayments with
  | some b => b
  | none => requiresPaymentsDetected l h

/-- Compliance before hints (source lines 558–562). -/
def complianceBase (l : Chars) : List String :=
  (complianceTable.filter (fun p => p.1 l)).map (·.2)

def complianceFinal (l : Chars) (h : ImproveHints) : List String :=
  addHints (complianceBase l) h.compliance

/-- Pages before the hint-append loop: per-type list (`Set`-deduped) plus
the conditional `Blog` push (source lines 579–580). -/
def pagesPreHints (l : Chars) (h : ImproveHints) : List String :=
  let p0 := jsSetDedup (pagesByType (siteTypeFinal l h))
  if (featuresFinal l h).contains "Blog" then pushNew p0 "Blog" else p0

/-- Pages after hints and the conditional `Billing`/`Checkout` pushes
(source lines 581–588). -/
def pagesFinal (l : Chars) (h : ImproveHints) : List String :=
  let p := addHints (pagesPreHints l h) h.pages
  if requiresPaymentsFinal l h then pushNew (pushNew p "Billing") "Checkout" else p

/-- The slug of a page name (source line 589): lower-case, each run of
non-`[a-z0-9]` characters becomes one hyphen, leading/trailing hyphens
stripped, `/` prefixed. -/
def isLowerAlnum (c : Char) : Bool := ('a' ≤ c && c ≤ 'z') || ('0' ≤ c && c ≤ '9')

def collapseNonAlnum : Bool → Chars → Chars
  | _, [] => []
  | inRun, c :: cs =>
      if isLowerAlnum c then c :: collapseNonAlnum false cs
      else if inRun then collapseNonAlnum true cs
      else '-' :: collapseNonAlnum true cs

def slugify (s : String) : String :=
  let collapsed := collapseNonAlnum false (s.toList.map Char.toLower)
  let stripped := ((collapsed.dropWhile (· == '-')).reverse.dropWhile (· == '-')).reverse
  "/" ++ String.mk stripped

structure SitemapEntry where
  name : String
  path : String
deriving Repr, DecidableEq

/-- `pages.map((name) => ({ name, path: slugify(name) }))` (source line 590). -/
def sitemapOf (pages : List String) : List SitemapEntry :=
  pages.map (fun n => ⟨n, slugify n⟩)

/-- User stories (source lines 592–612). -/
def userStoriesPre (l : Chars) (h : ImproveHints) : List String :=
  jsSetDedup (userStoriesBase ++ userStoriesByType (siteTypeFinal l h))

def userStoriesFinal (l : Chars) (h : ImproveHints) : List String :=
  addHints (userStoriesPre l h) h.userStories

/-- Tech suggestions before hints (source lines 614–618). -/
def techPre (l : Chars) (h : ImproveHints) : List String :=
  let t := techBaseline
  let t := t ++ (if requiresPaymentsFinal l h then ["Stripe (or regional: Paymob/Fawry/MADA)"] else [])
  let t := t ++ (if usesArabicPat l then ["i18n with Arabic + RTL support"] else [])
  let t := t ++ (if (featuresFinal l h).contains "Blog" then ["MDX or headless CMS (e.g., Sanity)"] else [])
  jsSetDedup t

def techFinal (l : Chars) (h : ImproveHints) : List String :=
  addHints (techPre l h) h.tech

/-- Non-functional requirements (source lines 625–632). -/
def nonFunctionalOf (l : Chars) : List String :=
  ["Performance: LCP < 2.5s, TTI < 3.5s",
   "Accessibility: WCAG 2.1 AA",
   "SEO: title/description, sitemap.xml, robots.txt, Open Graph",
   "Security: HTTPS, CSP, secrets management",
   "Analytics: conversion events and funnels"] ++
  (if usesArabicPat l then ["Internationalization: RTL and Arabic typography"] else [])

def kpisFinal (l : Chars) (h : ImproveHints) : List String :=
  addHints (kpisByType (siteTypeFinal l h)) h.kpis

def contentChecklistFinal (h : ImproveHints) : List String :=
  addHints contentChecklistBase h.contentChecklist

def milestonesFinal (h : ImproveHints) : List String :=
  addHints milestonesBase h.milestones

def personasFinal (h : ImproveHints) : List String :=
  addHints personasBase h.personas

/-- Clarifying questions (source lines 685–701); the per-site-type pushes
are four mutually exclusive `if`s, rendered here as appended segments. -/
def clarifyingQuestionsOf (l : Chars) (h : ImproveHints) : List String :=
  let st := siteTypeFinal l h
  let q := ["What is the brand/product name?",
    "What is the one-line value proposition?",
    "Who is the primary audience and which market/region?",
    "What is the primary CTA (e.g., sign up, book, buy)?",
    "Do you have existing branding (logo, colors, typography)?",
    "What integrations are required (e.g., analytics, CRM, payment)?",
    "What is the launch timeline and key milestones?",
    "What budget or constraints should we consider?"]
  let q := q ++ (if requiresPaymentsFinal l h then
    ["Which payment gateways do you prefer (Stripe, Paymob, Fawry, MADA, etc.) and which currency to charge?"] else [])
  let q := q ++ (if (languagesFinal l h).contains "Arabic" then
    ["Do you require Arabic RTL support and translation for all pages?"] else [])
  let q := q ++ (if st == .ecommerce then
    ["What is the product catalog size, categories, variants, shipping/returns policy?"] else [])
  let q := q ++ (if st == .saas then
    ["What is the pricing model (free, freemium, trial), onboarding flow, and docs scope?"] else [])
  let q := q ++ (if st == .booking then
    ["What services, durations, availability rules, and rescheduling/cancellation policies apply?"] else [])
  let q := q ++ (if st == .event then
    ["What ticket types, seating, speakers, and content schedule are expected?"] else [])
  q ++ (if (complianceFinal l h).isEmpty then [] else
    ["Do you need legal pages (Privacy, Terms, Cookies) and data retention policies aligned with compliance?"])

/-! ## Document synthesizer -/

/-- `H(k)` (source lines 379–405). -/
def headingOut (lang k : String) : String :=
  if lang == "ar" then lookupOr headingArTable k else k

def mapSection (lang : String) (s : String) : String :=
  if lang == "ar" then lookupOr secArTable s else s

def mapAudienceOut (lang : String) (arr : List String) : List String :=
  if lang == "ar" then arr.map (lookupOr audienceArTable) else arr

def mapToneOut (lang : String) (arr : List String) : List String :=
  if lang == "ar" then arr.map (lookupOr toneArTable) else arr

def bulleted (xs : List String) : String :=
  String.intercalate "\n" (xs.map (fun s => "- " ++ s))

def primaryGoalsBullets (lang : String) : String :=
  if lang == "ar" then
    String.intercalate "\n" [
      "- شرح المنتج/الخدمة بلغة بسيطة",
      "- بناء الثقة عبر الأدلة",
      "- توجيه الزائر إلى دعوة إجراء مركّزة (مثل التسجيل، الحجز، الشراء)"]
  else
    String.intercalate "\n" [
      "- Explain the product/service in plain language",
      "- Establish trust with proof",
      "- Guide visitors to a focused CTA (e.g., sign up, book, buy)"]

def contentCtasBullets (lang : String) : String :=
  if lang == "ar" then
    String.intercalate "\n" [
      "- عنوان واضح يشرح القيمة",
      "- عنوان فرعي يوضح ماذا ومن ولأي نتيجة",
      "- دعوة إجراء أساسية أعلى الصفحة (وثابتة على الجوال)",
      "- دعوة إجراء ثانوية للتقييم (مثل: اعرف المزيد)",
      "- مؤشرات الثقة: شعارات، آراء، تقييمات"]
  else
    String.intercalate "\n" [
      "- Clear headline that states the value",
      "- Subheadline that clarifies what, who, and outcome",
      "- Primary CTA above the fold (sticky on mobile)",
      "- Secondary CTA for evaluation (e.g., Learn more)",
      "- Trust signals: logos, testimonials, ratings"]

def visualStyleBullets (lang : String) : String :=
  if lang == "ar" then
    String.intercalate "\n" [
      "- تصميم نظيف وحديث وقابل للوصول",
      "- تباين عالٍ ومسافات مريحة وتصميم متجاوب",
      "- استخدام لون إبراز واحد وتناسق العناصر"]
  else
    String.intercalate "\n" [
      "- Clean, modern, accessible",
      "- High contrast, generous spacing, responsive layout",
      "- Use one accent color, consistent component styles"]

/-- `statedGoal` (source line 304): whitespace runs collapsed to a single
space, truncated to 280 UTF-16 units; empty input gives the empty string. -/
def statedGoalOf (idea : Chars) : String :=
  if utf16Len idea > 0 then String.mk (utf16Take 280 (collapseWs false idea)) else ""

/-- The "improved prompt" (source lines 453–483).  The source builds an
array with `""` separators and `undefined` optional entries and then
applies `.filter(Boolean)`, which drops the `undefined`s AND the empty
strings, so the rendered document has no blank lines. -/
def improvedTextOf (idea : Chars) (l : Chars) (h : ImproveHints) : String :=
  let lang := langOf h
  let st := siteTypeFinal l h
  let audienceOut := mapAudienceOut lang (audienceFinal l h)
  let toneOut := mapToneOut lang (toneFinal l h)
  let typeLabelOut := if lang == "ar" then typeLabelAr st else typeLabel st
  let sectionsOut :=
    String.intercalate "\n" ((sectionsByType st).map (fun s => "- " ++ mapSection lang s))
  let overviewLine :=
    if lang == "ar" then
      "بناء " ++ typeLabelOut ++ " موجه لـ " ++ String.intercalate ", " audienceOut ++
        ". الهدف هو توصيل القيمة بوضوح وزيادة التحويلات."
    else
      "Build a " ++ typeLabelOut ++ " for " ++ String.intercalate ", " audienceOut ++
        ". The purpose is to clearly communicate value and drive conversions."
  let statedGoal := statedGoalOf idea
  let parts : List (Option String) := [
    some (headingOut lang "Project overview"),
    some overviewLine,
    some "",
    some (headingOut lang "Target audience"),
    some ("- " ++ String.intercalate "\n- " audienceOut),
    some "",
    some (headingOut lang "Primary goals"),
    some (primaryGoalsBullets lang),
    some "",
    some (headingOut lang "Tone & voice"),
    some ("- " ++ String.intercalate ", " toneOut),
    some "",
    some (headingOut lang "Suggested site structure"),
    some sectionsOut,
    some "",
    some (headingOut lang "Key features"),
    some (bulleted (selectedFeaturesOf l h)),
    some "",
    some (headingOut lang "Content & CTAs"),
    some (contentCtasBullets lang),
    some "",
    some (headingOut lang "Visual style"),
    some (visualStyleBullets lang),
    some "",
    (if statedGoal != "" then some (headingOut lang "Notes from the original idea") else none),
    (if statedGoal != "" then some ("- " ++ statedGoal) else none)]
  String.intercalate "\n" ((parts.filterMap id).filter (fun s => s != ""))

/-- The "project blueprint" (source lines 703–734); joined without a
filter, so its `""` separators remain as blank lines. -/
def blueprintTextOf (l : Chars) (h : ImproveHints) : String :=
  let lang := langOf h
  String.intercalate "\n" [
    headingOut lang "Project blueprint",
    headingOut lang "Scope",
    (if lang == "ar" then "- الصناعة: " ++ String.intercalate ", " (industriesFinal l h)
     else "- Industry: " ++ String.intercalate ", " (industriesFinal l h)),
    (if lang == "ar" then "- المناطق: " ++ String.intercalate ", " (regionsFinal l h)
     else "- Regions: " ++ String.intercalate ", " (regionsFinal l h)),
    (if lang == "ar" then "- اللغات: " ++ String.intercalate ", " (languagesFinal l h)
     else "- Languages: " ++ String.intercalate ", " (languagesFinal l h)),
    (if lang == "ar" then "- العملة: " ++ currencyFinal l h
     else "- Currency: " ++ currencyFinal l h),
    "",
    headingOut lang "Pages & sitemap",
    String.intercalate "\n"
      ((sitemapOf (pagesFinal l h)).map (fun p => "- " ++ p.name ++ " (" ++ p.path ++ ")")),
    "",
    headingOut lang "User stories",
    bulleted (userStoriesFinal l h),
    "",
    headingOut lang "Non-functional requirements",
    bulleted (nonFunctionalOf l),
    "",
    headingOut lang "KPIs",
    bulleted (kpisFinal l h),
    "",
    headingOut lang "Tech stack suggestions",
    bulleted (techFinal l h),
    "",
    headingOut lang "Content checklist",
    bulleted (contentChecklistFinal h),
    "",
    headingOut lang "Milestones",
    bulleted (milestonesFinal h),
    "",
    headingOut lang "Questions to clarify",
    bulleted (clarifyingQuestionsOf l h)]

/-! ## The engine facade -/

/-- The `details` object returned by `improveIdea` (source lines 738–769). -/
structure FeatureDetails where
  audience : List String
  siteType : SiteType
  siteTypeLabel : String
  tone : List String
  suggestedSections : List String
  defaultFeatures : List String
  detectedFeatures : List String
  selectedFeatures : List String
  ideaLength : Nat
  wordCount : Nat
  statedGoal : String
  projectMode : Bool
  industries : List String
  regions : List String
  languages : List String
  currency : String
  requiresPayments : Bool
  compliance : List String
  pages : List String
  sitemap : List SitemapEntry
  userStories : List String
  techSuggestions : List String
  nonFunctional : List String
  kpis : List String
  contentChecklist : List String
  milestones : List String
  personas : List String
  clarifyingQuestions : List String
  blueprint : Option String
  outputLang : String
deriving Repr, DecidableEq

structure ImproveResult where
  improved : String
  details : FeatureDetails
deriving Repr, DecidableEq

/-- The pure part of `improveIdea` (source lines 77–773), everything
except the `processingMs` wall-clock measurement. -/
def improveIdea (raw : String) (h : ImproveHints) : ImproveResult :=
  let idea := jsTrim raw.toList
  let l := idea.map Char.toLower
  let st := siteTypeFinal l h
  let pm := projectModeFinal l h
  { improved := improvedTextOf idea l h
    details := {
      audience := audienceFinal l h
      siteType := st
      siteTypeLabel := typeLabel st
      tone := toneFinal l h
      suggestedSections := sectionsByType st
      defaultFeatures := defaultFeaturesByType st
      detectedFeatures := featuresFinal l h
      selectedFeatures := selectedFeaturesOf l h
      ideaLength := utf16Len idea
      wordCount := if utf16Len idea > 0 then countWords false idea else 0
      statedGoal := statedGoalOf idea
      projectMode := pm
      industries := industriesFinal l h
      regions := regionsFinal l h
      languages := languagesFinal l h
      currency := currencyFinal l h
      requiresPayments := requiresPaymentsFinal l h
      compliance := complianceFinal l h
      pages := pagesFinal l h
      sitemap := sitemapOf (pagesFinal l h)
      userStories := userStoriesFinal l h
      techSuggestions := techFinal l h
      nonFunctional := nonFunctionalOf l
      kpis := kpisFinal l h
      contentChecklist := contentChecklistFinal h
      milestones := milestonesFinal h
      personas := personasFinal h
      clarifyingQuestions := clarifyingQuestionsOf l h
      blueprint := if pm then some (blueprintTextOf l h) else none
      outputLang := langOf h } }

structure TimedResult where
  improved : String
  processingMs : Int
  details : FeatureDetails
deriving Repr, DecidableEq

/-- `improveIdea` with its wall-clock measurement made explicit: the source
samples `Date.now()` on entry (`startedAt`) and on exit and returns their
difference as `processingMs` (source lines 78, 771–772).  The clock
readings are inputs of the embedding. -/
def improveIdeaTimed (raw : String) (h : ImproveHints) (startedAt endedAt : Int) : TimedResult :=
  let r := improveIdea raw h
  { improved := r.improved, processingMs := endedAt - startedAt, details := r.details }

/-- The merge discipline the hint-append loops establish for one set-valued
field: the classified entries stay (as a prefix, so hint entries only come
after them), every non-empty hint entry is present, and no entry repeats. -/
def mergeOk (base final hs : List String) : Prop :=
  base <+: final ∧ (∀ x ∈ hs, x ≠ "" → x ∈ final) ∧ final.Nodup

/-! ## Lemmas about the JS array/set idioms -/

theorem contains_iff {l : List String} {a : String} : l.contains a = true ↔ a ∈ l :=
  List.elem_iff

theorem prefix_pushNew (xs : List String) (x : String) : xs <+: pushNew xs x := by
  unfold pushNew
  split
  · exact List.prefix_refl xs
  · exact List.prefix_append xs [x]

theorem mem_pushNew {y x : String} {xs : List String} :
    y ∈ pushNew xs x ↔ y ∈ xs ∨ y = x := by
  unfold pushNew
  split
  · rename_i hc
    constructor
    · exact .inl
    · rintro (h | rfl)
      · exact h
      · exact contains_iff.mp hc
  · simp

theorem pushNew_nodup {xs : List String} (h : xs.Nodup) (x : String) :
    (pushNew xs x).Nodup := by
  unfold pushNew
  split
  · exact h
  · rename_i hc
    have hx : x ∉ xs := fun hm => hc (contains_iff.mpr hm)
    simp [List.nodup_append, h, hx]

theorem foldl_prefix_pushNew (acc l : List String) : acc <+: l.foldl pushNew acc := by
  induction l generalizing acc with
  | nil => exact List.prefix_refl acc
  | cons a l ih =>
      exact (prefix_pushNew acc a).trans (ih (pushNew acc a))

theorem foldl_pushNew_nodup {acc : List String} (h : acc.Nodup) (l : List String) :
    (l.foldl pushNew acc).Nodup := by
  induction l generalizing acc with
  | nil => exact h
  | cons a l ih => exact ih (pushNew_nodup h a)

theorem mem_foldl_pushNew {y : String} {acc l : List String} :
    y ∈ l.foldl pushNew acc ↔ y ∈ acc ∨ y ∈ l := by
  induction l generalizing acc with
  | nil => simp
  | cons a l ih =>
      simp only [List.foldl_cons, ih, mem_pushNew, List.mem_cons]
      tauto

theorem jsSetDedup_nodup (l : List String) : (jsSetDedup l).Nodup :=
  foldl_pushNew_nodup List.nodup_nil l

theorem mem_jsSetDedup {y : String} {l : List String} : y ∈ jsSetDedup l ↔ y ∈ l := by
  unfold jsSetDedup
  rw [mem_foldl_pushNew]
  simp

theorem jsSetDedup_append (a b : List String) :
    jsSetDedup (a ++ b) = b.foldl pushNew (jsSetDedup a) :=
  List.foldl_append ..

theorem jsSetDedup_ne_nil {l : List String} (h : l ≠ []) : jsSetDedup l ≠ [] := by
  obtain ⟨a, t, rfl⟩ := List.exists_cons_of_ne_nil h
  intro hnil
  have : a ∈ jsSetDedup (a :: t) := mem_jsSetDedup.mpr (List.mem_cons_self a t)
  rw [hnil] at this
  exact (List.not_mem_nil a) this

theorem prefix_ne_nil {l m : List String} (h : l <+: m) (hne : l ≠ []) : m ≠ [] := by
  obtain ⟨t, rfl⟩ := h
  simp_all

theorem prefix_addHint (xs : List String) (x : String) : xs <+: addHint xs x := by
  unfold addHint
  split
  · exact List.prefix_append xs [x]
  · exact List.prefix_refl xs

theorem mem_addHint {y x : String} {xs : List String} :
    y ∈ addHint xs x ↔ y ∈ xs ∨ (y = x ∧ x ≠ "") := by
  unfold addHint
  split
  · rename_i hg
    have hx : x ≠ "" := by
      rcases Bool.and_eq_true .. |>.mp hg with ⟨h1, _⟩
      simpa using h1
    simp [hx]
  · rename_i hg
    constructor
    · exact .inl
    · rintro (h | ⟨rfl, hne⟩)
      · exact h
      · by_cases hc : y ∈ xs
        · exact hc
        · exfalso
          apply hg
          have h1 : (y != "") = true := bne_iff_ne.mpr hne
          have h2 : xs.contains y = false := by
            cases hcc : xs.contains y
            · rfl
            · exact absurd (contains_iff.mp hcc) hc
          rw [h1, h2]
          rfl

theorem addHint_nodup {xs : List String} (h : xs.Nodup) (x : String) :
    (addHint xs x).Nodup := by
  unfold addHint
  split
  · rename_i hg
    have hx : x ∉ xs := by
      rcases Bool.and_eq_true .. |>.mp hg with ⟨_, h2⟩
      intro hm
      simp [contains_iff.mpr hm] at h2
      exact h2 hm
    simp [List.nodup_append, h, hx]
  · exact h

theorem prefix_addHints (xs hs : List String) : xs <+: addHints xs hs := by
  induction hs generalizing xs with
  | nil => exact List.prefix_refl xs
  | cons a l ih => exact (prefix_addHint xs a).trans (ih (addHint xs a))

theorem addHints_nodup {xs : List String} (h : xs.Nodup) (hs : List String) :
    (addHints xs hs).Nodup := by
  induction hs generalizing xs with
  | nil => exact h
  | cons a l ih => exact ih (addHint_nodup h a)

theorem mem_addHints {y : String} {xs hs : List String} :
    y ∈ addHints xs hs ↔ y ∈ xs ∨ (y ∈ hs ∧ y ≠ "") := by
  induction hs generalizing xs with
  | nil => simp [addHints]
  | cons a l ih =>
      show y ∈ addHints (addHint xs a) l ↔ _
      rw [ih, mem_addHint]
      constructor
      · rintro ((h | ⟨rfl, hne⟩) | ⟨hl, hne⟩)
        · exact .inl h
        · exact .inr ⟨List.mem_cons_self .., hne⟩
        · exact .inr ⟨List.mem_cons_of_mem a hl, hne⟩
      · rintro (h | ⟨hm, hne⟩)
        · exact .inl (.inl h)
        · rcases List.mem_cons.mp hm with rfl | hl
          · exact .inl (.inr ⟨rfl, hne⟩)
          · exact .inr ⟨hl, hne⟩

theorem addHints_ne_nil {xs : List String} (h : xs ≠ []) (hs : List String) :
    addHints xs hs ≠ [] :=
  prefix_ne_nil (prefix_addHints xs hs) h

theorem addHints_no_empty {xs : List String} (h : "" ∉ xs) (hs : List String) :
    "" ∉ addHints xs hs := by
  intro hm
  rcases mem_addHints.mp hm with h1 | ⟨_, h2⟩
  · exact h h1
  · exact h2 rfl

theorem mergeOk_addHints {base : List String} (hb : base.Nodup) (hs : List String) :
    mergeOk base (addHints base hs) hs :=
  ⟨prefix_addHints base hs,
   fun x hx hne => mem_addHints.mpr (.inr ⟨hx, hne⟩),
   addHints_nodup hb hs⟩

/-- Membership in a final merged list is monotone under a further `pushNew`. -/
theorem mem_of_mem_pushNew {y x : String} {xs : List String} (h : y ∈ xs) :
    y ∈ pushNew xs x := mem_pushNew.mpr (.inl h)

theorem filterMapSnd_sub {α : Type} (t : List (α × String)) (p : α × String → Bool) :
    ((t.filter p).map Prod.snd) ⊆ t.map Prod.snd :=
  List.map_subset Prod.snd (List.filter_sublist t).subset

theorem filterMapSnd_nodup {α : Type} {t : List (α × String)} (p : α × String → Bool)
    (h : (t.map Prod.snd).Nodup) : ((t.filter p).map Prod.snd).Nodup :=
  h.sublist ((List.filter_sublist t).map Prod.snd)

/-- An element of a conditional singleton segment `if c then xs else []`. -/
theorem mem_of_mem_ifList {y : String} {c : Prop} [Decidable c] {xs : List String}
    (h : y ∈ if c then xs else ([] : List String)) : y ∈ xs := by
  split at h
  · exact h
  · cases h

theorem ifList_sublist {c : Prop} [Decidable c] (xs : List String) :
    List.Sublist (if c then xs else ([] : List String)) xs := by
  split
  · exact List.Sublist.refl xs
  · exact List.nil_sublist xs

/-! ## Structural facts about the classified (pre-hint) field values -/

theorem audienceBase_nodup (l : Chars) : (audienceBase l).Nodup := jsSetDedup_nodup _

theorem audienceBase_ne_nil (l : Chars) : audienceBase l ≠ [] := by
  unfold audienceBase
  apply jsSetDedup_ne_nil
  split
  · simp
  · rename_i hm
    simpa using hm

theorem audienceBase_no_empty (l : Chars) : "" ∉ audienceBase l := by
  intro hm
  rw [audienceBase, mem_jsSetDedup] at hm
  revert hm
  split
  · decide
  · intro hm
    have := filterMapSnd_sub audienceTable (fun p => hasSub l p.1) hm
    revert this
    decide

theorem toneBase_nodup (l : Chars) : (toneBase l).Nodup := by
  simp only [toneBase]
  split
  · decide
  · exact filterMapSnd_nodup _ (by decide)

theorem toneBase_ne_nil (l : Chars) : toneBase l ≠ [] := by
  simp only [toneBase]
  split
  · decide
  · rename_i hm
    simpa using hm

theorem toneBase_no_empty (l : Chars) : "" ∉ toneBase l := by
  simp only [toneBase]
  split
  · decide
  · intro hx
    have := filterMapSnd_sub toneTable (fun p => p.1 l) hx
    revert this
    decide

theorem featuresBase_nodup (l : Chars) : (featuresBase l).Nodup := jsSetDedup_nodup _

theorem featuresBase_no_empty (l : Chars) : "" ∉ featuresBase l := by
  intro hm
  rw [featuresBase, mem_jsSetDedup] at hm
  have := filterMapSnd_sub featureTable (fun p => p.1 l) hm
  revert this
  decide

theorem industriesBase_nodup (l : Chars) : (industriesBase l).Nodup := by
  simp only [industriesBase]
  split
  · decide
  · exact jsSetDedup_nodup _

theorem industriesBase_ne_nil (l : Chars) : industriesBase l ≠ [] := by
  simp only [industriesBase]
  split
  · decide
  · rename_i hm
    simpa using hm

theorem industriesBase_no_empty (l : Chars) : "" ∉ industriesBase l := by
  simp only [industriesBase]
  split
  · decide
  · intro hx
    rw [mem_jsSetDedup] at hx
    have := filterMapSnd_sub industryTable (fun p => p.1 l) hx
    revert this
    decide

theorem regionsBase_nodup (l : Chars) : (regionsBase l).Nodup := by
  simp only [regionsBase]
  split
  · decide
  · exact jsSetDedup_nodup _

theorem regionsBase_ne_nil (l : Chars) : regionsBase l ≠ [] := by
  simp only [regionsBase]
  split
  · decide
  · rename_i hm
    simpa using hm

theorem regionsBase_no_empty (l : Chars) : "" ∉ regionsBase l := by
  simp only [regionsBase]
  split
  · decide
  · intro hx
    rw [mem_jsSetDedup] at hx
    have := filterMapSnd_sub regionTable (fun p => p.1 l) hx
    revert this
    decide

theorem languagesBase_nodup (l : Chars) : (languagesBase l).Nodup := jsSetDedup_nodup _

theorem languagesBase_ne_nil (l : Chars) : languagesBase l ≠ [] := by
  unfold languagesBase
  cases usesArabicPat l <;> simp <;> decide

theorem languagesBase_no_empty (l : Chars) : "" ∉ languagesBase l := by
  unfold languagesBase
  cases usesArabicPat l <;> simp <;> decide

theorem complianceBase_nodup (l : Chars) : (complianceBase l).Nodup :=
  filterMapSnd_nodup _ (by decide)

theorem complianceBase_no_empty (l : Chars) : "" ∉ complianceBase l := by
  intro hm
  have := filterMapSnd_sub complianceTable (fun p => p.1 l) hm
  revert this
  decide

theorem pagesByType_ne_nil (st : SiteType) : pagesByType st ≠ [] := by
  cases st <;> decide

theorem pagesByType_no_empty (st : SiteType) : "" ∉ pagesByType st := by
  cases st <;> decide

theorem defaultFeaturesByType_ne_nil (st : SiteType) : defaultFeaturesByType st ≠ [] := by
  cases st <;> decide

theorem defaultFeaturesByType_no_empty (st : SiteType) : "" ∉ defaultFeaturesByType st := by
  cases st <;> decide

theorem pagesPreHints_nodup (l : Chars) (h : ImproveHints) : (pagesPreHints l h).Nodup := by
  unfold pagesPreHints
  split
  · exact pushNew_nodup (jsSetDedup_nodup _) _
  · exact jsSetDedup_nodup _

theorem pagesPreHints_ne_nil (l : Chars) (h : ImproveHints) : pagesPreHints l h ≠ [] := by
  unfold pagesPreHints
  have h0 : jsSetDedup (pagesByType (siteTypeFinal l h)) ≠ [] :=
    jsSetDedup_ne_nil (pagesByType_ne_nil _)
  split
  · exact prefix_ne_nil (prefix_pushNew ..) h0
  · exact h0

theorem pagesPreHints_no_empty (l : Chars) (h : ImproveHints) : "" ∉ pagesPreHints l h := by
  unfold pagesPreHints
  have h0 : "" ∉ jsSetDedup (pagesByType (siteTypeFinal l h)) := by
    rw [mem_jsSetDedup]
    exact pagesByType_no_empty _
  split
  · intro hx
    rcases mem_pushNew.mp hx with hx | hx
    · exact h0 hx
    · exact absurd hx (by decide)
  · exact h0

theorem pagesFinal_nodup (l : Chars) (h : ImproveHints) : (pagesFinal l h).Nodup := by
  unfold pagesFinal
  have h0 := addHints_nodup (pagesPreHints_nodup l h) h.pages
  split
  · exact pushNew_nodup (pushNew_nodup h0 _) _
  · exact h0

theorem pagesFinal_ne_nil (l : Chars) (h : ImproveHints) : pagesFinal l h ≠ [] := by
  unfold pagesFinal
  have h0 := addHints_ne_nil (pagesPreHints_ne_nil l h) h.pages
  split
  · exact prefix_ne_nil ((prefix_pushNew ..).trans (prefix_pushNew ..)) h0
  · exact h0

theorem pagesFinal_no_empty (l : Chars) (h : ImproveHints) : "" ∉ pagesFinal l h := by
  unfold pagesFinal
  have h0 := addHints_no_empty (pagesPreHints_no_empty l h) h.pages
  split
  · intro hx
    rcases mem_pushNew.mp hx with hx | hx
    · rcases mem_pushNew.mp hx with hx | hx
      · exact h0 hx
      · exact absurd hx (by decide)
    · exact absurd hx (by decide)
  · exact h0

theorem userStoriesPre_nodup (l : Chars) (h : ImproveHints) : (userStoriesPre l h).Nodup :=
  jsSetDedup_nodup _

theorem userStoriesPre_ne_nil (l : Chars) (h : ImproveHints) : userStoriesPre l h ≠ [] := by
  apply jsSetDedup_ne_nil
  simp [userStoriesBase]

theorem userStoriesPre_no_empty (l : Chars) (h : ImproveHints) : "" ∉ userStoriesPre l h := by
  intro hx
  rw [userStoriesPre, mem_jsSetDedup, List.mem_append] at hx
  rcases hx with hx | hx
  · revert hx
    decide
  · revert hx
    cases siteTypeFinal l h <;> decide

theorem techPre_nodup (l : Chars) (h : ImproveHints) : (techPre l h).Nodup :=
  jsSetDedup_nodup _

theorem techPre_ne_nil (l : Chars) (h : ImproveHints) : techPre l h ≠ [] := by
  apply jsSetDedup_ne_nil
  simp [techBaseline]

theorem techPre_no_empty (l : Chars) (h : ImproveHints) : "" ∉ techPre l h := by
  intro hx
  rw [techPre, mem_jsSetDedup] at hx
  simp only [List.append_assoc, List.mem_append] at hx
  rcases hx with hx | hx | hx | hx
  · revert hx
    decide
  · exact (by decide : "" ∉ ["Stripe (or regional: Paymob/Fawry/MADA)"]) (mem_of_mem_ifList hx)
  · exact (by decide : "" ∉ ["i18n with Arabic + RTL support"]) (mem_of_mem_ifList hx)
  · exact (by decide : "" ∉ ["MDX or headless CMS (e.g., Sanity)"]) (mem_of_mem_ifList hx)

theorem kpisByType_nodup (st : SiteType) : (kpisByType st).Nodup := by
  cases st <;> decide

theorem kpisByType_ne_nil (st : SiteType) : kpisByType st ≠ [] := by
  cases st <;> decide

theorem kpisByType_no_empty (st : SiteType) : "" ∉ kpisByType st := by
  cases st <;> decide

theorem selectedFeatures_nodup (l : Chars) (h : ImproveHints) :
    (selectedFeaturesOf l h).Nodup := jsSetDedup_nodup _

theorem selectedFeatures_ne_nil (l : Chars) (h : ImproveHints) :
    selectedFeaturesOf l h ≠ [] := by
  apply jsSetDedup_ne_nil
  intro hx
  exact defaultFeaturesByType_ne_nil (siteTypeFinal l h) (List.append_eq_nil.mp hx).1

theorem featuresFinal_no_empty (l : Chars) (h : ImproveHints) : "" ∉ featuresFinal l h :=
  addHints_no_empty (featuresBase_no_empty l) h.features

theorem selectedFeatures_no_empty (l : Chars) (h : ImproveHints) :
    "" ∉ selectedFeaturesOf l h := by
  intro hx
  rw [selectedFeaturesOf, mem_jsSetDedup, List.mem_append] at hx
  rcases hx with hx | hx
  · exact defaultFeaturesByType_no_empty _ hx
  · exact featuresFinal_no_empty l h hx

theorem nonFunctional_nodup (l : Chars) : (nonFunctionalOf l).Nodup := by
  unfold nonFunctionalOf
  split <;> decide

theorem nonFunctional_ne_nil (l : Chars) : nonFunctionalOf l ≠ [] := by
  unfold nonFunctionalOf
  simp [List.append_eq_nil]

theorem clarifyingQuestions_ne_nil (l : Chars) (h : ImproveHints) :
    clarifyingQuestionsOf l h ≠ [] := by
  simp only [clarifyingQuestionsOf]
  simp [List.append_eq_nil]

theorem clarifyingQuestions_nodup (l : Chars) (h : ImproveHints) :
    (clarifyingQuestionsOf l h).Nodup := by
  have hsub : List.Sublist (clarifyingQuestionsOf l h)
      (["What is the brand/product name?",
        "What is the one-line value proposition?",
        "Who is the primary audience and which market/region?",
        "What is the primary CTA (e.g., sign up, book, buy)?",
        "Do you have existing branding (logo, colors, typography)?",
        "What integrations are required (e.g., analytics, CRM, payment)?",
        "What is the launch timeline and key milestones?",
        "What budget or constraints should we consider?"] ++
       ["Which payment gateways do you prefer (Stripe, Paymob, Fawry, MADA, etc.) and which currency to charge?"] ++
       ["Do you require Arabic RTL support and translation for all pages?"] ++
       ["What is the product catalog size, categories, variants, shipping/returns policy?"] ++
       ["What is the pricing model (free, freemium, trial), onboarding flow, and docs scope?"] ++
       ["What services, durations, availability rules, and rescheduling/cancellation policies apply?"] ++
       ["What ticket types, seating, speakers, and content schedule are expected?"] ++
       ["Do you need legal pages (Privacy, Terms, Cookies) and data retention policies aligned with compliance?"]) := by
    unfold clarifyingQuestionsOf
    refine List.Sublist.append (List.Sublist.append (List.Sublist.append
      (List.Sublist.append (List.Sublist.append (List.Sublist.append
        (List.Sublist.append (List.Sublist.refl _) (ifList_sublist _))
        (ifList_sublist _)) (ifList_sublist _)) (ifList_sublist _))
      (ifList_sublist _)) (ifList_sublist _)) ?_
    split
    · exact List.nil_sublist _
    · exact List.Sublist.refl _
  exact List.Nodup.sublist hsub (by decide)

/-! ## Projection equations: each `details` field is the corresponding
pipeline function applied to the normalized text `normLower raw`. -/

theorem details_audience (raw : String) (h : ImproveHints) :
    (improveIdea raw h).details.audience = audienceFinal (normLower raw) h := rfl

theorem details_siteType (raw : String) (h : ImproveHints) :
    (improveIdea raw h).details.siteType = siteTypeFinal (normLower raw) h := rfl

theorem details_tone (raw : String) (h : ImproveHints) :
    (improveIdea raw h).details.tone = toneFinal (normLower raw) h := rfl

theorem details_detectedFeatures (raw : String) (h : ImproveHints) :
    (improveIdea raw h).details.detectedFeatures = featuresFinal (normLower raw) h := rfl

theorem details_selectedFeatures (raw : String) (h : ImproveHints) :
    (improveIdea raw h).details.selectedFeatures = selectedFeaturesOf (normLower raw) h := rfl

theorem details_projectMode (raw : String) (h : ImproveHints) :
    (improveIdea raw h).details.projectMode = projectModeFinal (normLower raw) h := rfl

theorem details_industries (raw : String) (h : ImproveHints) :
    (improveIdea raw h).details.industries = industriesFinal (normLower raw) h := rfl

theorem details_regions (raw : String) (h : ImproveHints) :
    (improveIdea raw h).details.regions = regionsFinal (normLower raw) h := rfl

theorem details_languages (raw : String) (h : ImproveHints) :
    (improveIdea raw h).details.languages = languagesFinal (normLower raw) h := rfl

theorem details_currency (raw : String) (h : ImproveHints) :
    (improveIdea raw h).details.currency = currencyFinal (normLower raw) h := rfl

theorem details_requiresPayments (raw : String) (h : ImproveHints) :
    (improveIdea raw h).details.requiresPayments = requiresPaymentsFinal (normLower raw) h := rfl

theorem details_compliance (raw : String) (h : ImproveHints) :
    (improveIdea raw h).details.compliance = complianceFinal (normLower raw) h := rfl

theorem details_pages (raw : String) (h : ImproveHints) :
    (improveIdea raw h).details.pages = pagesFinal (normLower raw) h := rfl

theorem details_sitemap (raw : String) (h : ImproveHints) :
    (improveIdea raw h).details.sitemap = sitemapOf (pagesFinal (normLower raw) h) := rfl

theorem details_userStories (raw : String) (h : ImproveHints) :
    (improveIdea raw h).details.userStories = userStoriesFinal (normLower raw) h := rfl

theorem details_techSuggestions (raw : String) (h : ImproveHints) :
    (improveIdea raw h).details.techSuggestions = techFinal (normLower raw) h := rfl

theorem details_nonFunctional (raw : String) (h : ImproveHints) :
    (improveIdea raw h).details.nonFunctional = nonFunctionalOf (normLower raw) := rfl

theorem details_kpis (raw : String) (h : ImproveHints) :
    (improveIdea raw h).details.kpis = kpisFinal (normLower raw) h := rfl

theorem details_contentChecklist (raw : String) (h : ImproveHints) :
    (improveIdea raw h).details.contentChecklist = contentChecklistFinal h := rfl

theorem details_milestones (raw : String) (h : ImproveHints) :
    (improveIdea raw h).details.milestones = milestonesFinal h := rfl

theorem details_personas (raw : String) (h : ImproveHints) :
    (improveIdea raw h).details.personas = personasFinal h := rfl

theorem details_clarifyingQuestions (raw : String) (h : ImproveHints) :
    (improveIdea raw h).details.clarifyingQuestions = clarifyingQuestionsOf (normLower raw) h := rfl

theorem details_outputLang (raw : String) (h : ImproveHints) :
    (improveIdea raw h).details.outputLang = langOf h := rfl

/-- Without a `siteType` hint the final site type is the classifier's. -/
theorem siteTypeFinal_noHint (l : Chars) {h : ImproveHints} (hh : h.siteType = none) :
    siteTypeFinal l h = classifySiteType l := by
  unfold siteTypeFinal
  rw [hh]

/-! ## Claims -/

/-- C1 counterexample: the claim says a `projectMode=false` hint yields
`projectMode=false` even when project keywords occur in the text, but the
source (lines 174–176) applies a boolean `projectMode` hint only when it is
`true`; on the input "project" with hint `{projectMode: false}` the merged
vector still has `projectMode = true`. -/
theorem C1_counterexample :
    (improveIdea "project" { projectMode := some false }).details.projectMode = true := by
  decide

/-- C1 (amended): each scalar field independently — a valid hint replaces
the classified value outright for `siteType`, `currency`,
`requiresPayments` and `outputLang`, whichever of them the hint object
supplies (in particular a `requiresPayments=false` hint forces `false`
even when a payment pattern matched), but a `projectMode` hint only forces
`true`: `projectMode=false` is ignored and the text-derived value stands. -/
theorem C1_scalar_hint_precedence (raw : String) (h : ImproveHints) :
    (∀ (s : String) (t : SiteType), h.siteType = some s →
      parseSiteType (String.mk (s.toList.map Char.toLower)) = some t →
      (improveIdea raw h).details.siteType = t) ∧
    (∀ c : String, h.currency = some c → c ≠ "" →
      (improveIdea raw h).details.currency = c) ∧
    (∀ b : Bool, h.requiresPayments = some b →
      (improveIdea raw h).details.requiresPayments = b) ∧
    (h.outputLang = some "ar" → (improveIdea raw h).details.outputLang = "ar") ∧
    (h.outputLang = some "en" → (improveIdea raw h).details.outputLang = "en") ∧
    (h.projectMode = some true → (improveIdea raw h).details.projectMode = true) ∧
    (h.projectMode = some false →
      (improveIdea raw h).details.projectMode = projectPat (normLower raw)) := by
  refine ⟨?_, ?_, ?_, ?_, ?_, ?_, ?_⟩
  · intro s t hs ht
    rw [details_siteType]
    unfold siteTypeFinal
    rw [hs]
    dsimp only
    rw [ht]
  · intro c hc hc'
    rw [details_currency]
    unfold currencyFinal
    rw [hc]
    simp [hc']
  · intro b hb
    rw [details_requiresPayments]
    unfold requiresPaymentsFinal
    rw [hb]
  · intro hol
    rw [details_outputLang]
    unfold langOf
    rw [hol]
    rfl
  · intro hol
    rw [details_outputLang]
    unfold langOf
    rw [hol]
    rfl
  · intro hp
    rw [details_projectMode]
    unfold projectModeFinal
    rw [hp]
    simp
  · intro hp
    rw [details_projectMode]
    unfold projectModeFinal
    rw [hp]
    simp

/-- C1 witness: the amended theorem applied at concrete inputs, each hint
object supplying a single scalar field. -/
theorem C1_witness :
    (improveIdea "project payment" { currency := some "EGP" }).details.currency = "EGP" ∧
    (improveIdea "project payment" { siteType := some "Blog" }).details.siteType
      = SiteType.blog ∧
    (improveIdea "project payment"
      { requiresPayments := some false }).details.requiresPayments = false ∧
    (improveIdea "project payment" { outputLang := some "ar" }).details.outputLang = "ar" :=
  ⟨(C1_scalar_hint_precedence "project payment" { currency := some "EGP" }).2.1
      "EGP" rfl (by decide),
   (C1_scalar_hint_precedence "project payment" { siteType := some "Blog" }).1
      "Blog" SiteType.blog rfl (by decide),
   (C1_scalar_hint_precedence "project payment" { requiresPayments := some false }).2.2.1
      false rfl,
   (C1_scalar_hint_precedence "project payment" { outputLang := some "ar" }).2.2.2.1 rfl⟩

/-- C2 counterexample: on the input "payment" the payment-keyword pattern
matches, yet the hint `{requiresPayments: false}` makes the merged value
`false` — the source (line 556) lets a boolean hint replace the detected
value entirely, so the claimed "true iff selected-checkout ∨ pattern ∨
hint" biconditional fails. -/
theorem C2_counterexample :
    paymentsPat (normLower "payment") = true ∧
    (improveIdea "payment" { requiresPayments := some false }).details.requiresPayments
      = false := by
  constructor
  · decide
  · decide

/-- C2 (amended): when a boolean `requiresPayments` hint is present it is
the merged value outright; only in its absence is the merged value true iff
the `E-commerce checkout` feature label is among the (merged) features or a
payment-keyword pattern matches the lower-cased text. -/
theorem C2_requiresPayments (raw : String) (h : ImproveHints) :
    (improveIdea raw h).details.requiresPayments = true ↔
      (h.requiresPayments = some true ∨
        (h.requiresPayments = none ∧
          ("E-commerce checkout" ∈ (improveIdea raw h).details.detectedFeatures ∨
            paymentsPat (normLower raw) = true))) := by
  rw [details_requiresPayments, details_detectedFeatures]
  unfold requiresPaymentsFinal requiresPaymentsDetected
  cases hb : h.requiresPayments with
  | none => simp [Bool.or_eq_true, contains_iff]
  | some b => simp

/-- C3: the classifier yields exactly one of the eight site types, by the
fixed test order saas → ecommerce → portfolio → restaurant → blog → event →
booking with first match winning, `generic` exactly when no category
pattern matches; hence text matching both the ecommerce and the blog
patterns (and no earlier pattern) classifies as ecommerce, and the engine
without a siteType hint exposes exactly the classifier's value. -/
theorem C3_siteType_classification (l : Chars) :
    (∀ raw : String,
      (improveIdea raw noHints).details.siteType = classifySiteType (normLower raw)) ∧
    (classifySiteType l = .saas ∨ classifySiteType l = .ecommerce ∨
     classifySiteType l = .portfolio ∨ classifySiteType l = .restaurant ∨
     classifySiteType l = .blog ∨ classifySiteType l = .event ∨
     classifySiteType l = .booking ∨ classifySiteType l = .generic) ∧
    (saasPat l = true → classifySiteType l = .saas) ∧
    (saasPat l = false → ecomPat l = true → classifySiteType l = .ecommerce) ∧
    (saasPat l = false → ecomPat l = false → portfolioPat l = true →
      classifySiteType l = .portfolio) ∧
    (saasPat l = false → ecomPat l = false → portfolioPat l = false →
      restaurantPat l = true → classifySiteType l = .restaurant) ∧
    (saasPat l = false → ecomPat l = false → portfolioPat l = false →
      restaurantPat l = false → blogPat l = true → classifySiteType l = .blog) ∧
    (saasPat l = false → ecomPat l = false → portfolioPat l = false →
      restaurantPat l = false → blogPat l = false → eventPat l = true →
      classifySiteType l = .event) ∧
    (saasPat l = false → ecomPat l = false → portfolioPat l = false →
      restaurantPat l = false → blogPat l = false → eventPat l = false →
      bookingPat l = true → classifySiteType l = .booking) ∧
    (classifySiteType l = .generic ↔
      (saasPat l = false ∧ ecomPat l = false ∧ portfolioPat l = false ∧
       restaurantPat l = false ∧ blogPat l = false ∧ eventPat l = false ∧
       bookingPat l = false)) ∧
    (ecomPat l = true → blogPat l = true → saasPat l = false →
      classifySiteType l = .ecommerce) := by
  refine ⟨?_, ?_, ?_, ?_, ?_, ?_, ?_, ?_, ?_, ?_, ?_⟩
  · intro raw
    rw [details_siteType]
    exact siteTypeFinal_noHint _ rfl
  · cases hcl : classifySiteType l <;> simp
  · intro h1
    simp [classifySiteType, h1]
  · intro h1 h2
    simp [classifySiteType, h1, h2]
  · intro h1 h2 h3
    simp [classifySiteType, h1, h2, h3]
  · intro h1 h2 h3 h4
    simp [classifySiteType, h1, h2, h3, h4]
  · intro h1 h2 h3 h4 h5
    simp [classifySiteType, h1, h2, h3, h4, h5]
  · intro h1 h2 h3 h4 h5 h6
    simp [classifySiteType, h1, h2, h3, h4, h5, h6]
  · intro h1 h2 h3 h4 h5 h6 h7
    simp [classifySiteType, h1, h2, h3, h4, h5, h6, h7]
  · unfold classifySiteType
    split_ifs with h1 h2 h3 h4 h5 h6 h7 <;> simp_all
  · intro h1 h2 h3
    simp [classifySiteType, h1, h2, h3]

/-- C3 witness: "shop with a blog" matches both the ecommerce and the blog
patterns (and not the saas pattern) and classifies as ecommerce. -/
theorem C3_witness :
    ecomPat (normLower "shop with a blog") = true ∧
    blogPat (normLower "shop with a blog") = true ∧
    classifySiteType (normLower "shop with a blog") = SiteType.ecommerce :=
  ⟨by decide, by decide,
   (C3_siteType_classification
      (normLower "shop with a blog")).2.2.2.2.2.2.2.2.2.2
     (by decide) (by decide) (by decide)⟩

/-- C4 counterexample: on the Arabic scenario input with hint
`{outputLang:"ar"}` the claim expects `regions` to contain "Egypt" and
`currency = "EGP"`, but the region vocabulary (source lines 514–527) has
only Latin-script keywords and no currency keyword of the input matches, so
the engine yields `regions = ["Global"]` and `currency = "USD"`. -/
theorem C4_counterexample :
    "Egypt" ∉ (improveIdea "متجر إلكتروني للأزياء في مصر مع سلة وشراء ودفع"
        { outputLang := some "ar" }).details.regions ∧
    (improveIdea "متجر إلكتروني للأزياء في مصر مع سلة وشراء ودفع"
        { outputLang := some "ar" }).details.currency ≠ "EGP" := by
  constructor
  · decide
  · decide

/-- C4 (amended): the scenario yields `siteType = ecommerce`,
`requiresPayments = true` and Arabic improved-prompt headings (the document
starts with the Arabic "Project overview" heading), but
`regions = ["Global"]` (not "Egypt") and `currency = "USD"` (not "EGP"). -/
theorem C4_arabic_scenario :
    (improveIdea "متجر إلكتروني للأزياء في مصر مع سلة وشراء ودفع"
        { outputLang := some "ar" }).details.siteType = SiteType.ecommerce ∧
    (improveIdea "متجر إلكتروني للأزياء في مصر مع سلة وشراء ودفع"
        { outputLang := some "ar" }).details.regions = ["Global"] ∧
    (improveIdea "متجر إلكتروني للأزياء في مصر مع سلة وشراء ودفع"
        { outputLang := some "ar" }).details.currency = "USD" ∧
    (improveIdea "متجر إلكتروني للأزياء في مصر مع سلة وشراء ودفع"
        { outputLang := some "ar" }).details.requiresPayments = true ∧
    listPrefixOf "نظرة عامة على المشروع".toList
      (improveIdea "متجر إلكتروني للأزياء في مصر مع سلة وشراء ودفع"
        { outputLang := some "ar" }).improved.toList = true := by
  refine ⟨?_, ?_, ?_, ?_, ?_⟩
  · decide
  · decide
  · decide
  · decide
  · decide

/-- C5 counterexample: `detectedFeatures` is a set-valued field of the
merged FeatureVector distinct from `compliance`, and it is empty for the
empty input with no hints — so `compliance` is not the only set field that
may be empty. -/
theorem C5_counterexample :
    (improveIdea "" noHints).details.detectedFeatures = [] ∧
    (improveIdea "" noHints).details.compliance = [] := by
  constructor
  · rfl
  · rfl

/-- C5 (amended): for every input text and hints, `audience`, `tone`,
`industries`, `regions`, `languages`, `pages`, `sitemap` are non-empty,
every set-valued field is deduplicated, and every set-valued field other
than `compliance` and `detectedFeatures` (including `clarifyingQuestions`
and `nonFunctional`) is non-empty. -/
theorem C5_invariants (raw : String) (h : ImproveHints) :
    (improveIdea raw h).details.audience ≠ [] ∧
    (improveIdea raw h).details.tone ≠ [] ∧
    (improveIdea raw h).details.industries ≠ [] ∧
    (improveIdea raw h).details.regions ≠ [] ∧
    (improveIdea raw h).details.languages ≠ [] ∧
    (improveIdea raw h).details.pages ≠ [] ∧
    (improveIdea raw h).details.sitemap ≠ [] ∧
    (improveIdea raw h).details.selectedFeatures ≠ [] ∧
    (improveIdea raw h).details.userStories ≠ [] ∧
    (improveIdea raw h).details.techSuggestions ≠ [] ∧
    (improveIdea raw h).details.kpis ≠ [] ∧
    (improveIdea raw h).details.contentChecklist ≠ [] ∧
    (improveIdea raw h).details.milestones ≠ [] ∧
    (improveIdea raw h).details.personas ≠ [] ∧
    (improveIdea raw h).details.nonFunctional ≠ [] ∧
    (improveIdea raw h).details.clarifyingQuestions ≠ [] ∧
    (improveIdea raw h).details.audience.Nodup ∧
    (improveIdea raw h).details.tone.Nodup ∧
    (improveIdea raw h).details.detectedFeatures.Nodup ∧
    (improveIdea raw h).details.selectedFeatures.Nodup ∧
    (improveIdea raw h).details.industries.Nodup ∧
    (improveIdea raw h).details.regions.Nodup ∧
    (improveIdea raw h).details.languages.Nodup ∧
    (improveIdea raw h).details.compliance.Nodup ∧
    (improveIdea raw h).details.pages.Nodup ∧
    (improveIdea raw h).details.sitemap.Nodup ∧
    (improveIdea raw h).details.userStories.Nodup ∧
    (improveIdea raw h).details.techSuggestions.Nodup ∧
    (improveIdea raw h).details.kpis.Nodup ∧
    (improveIdea raw h).details.contentChecklist.Nodup ∧
    (improveIdea raw h).details.milestones.Nodup ∧
    (improveIdea raw h).details.personas.Nodup ∧
    (improveIdea raw h).details.nonFunctional.Nodup ∧
    (improveIdea raw h).details.clarifyingQuestions.Nodup := by
  rw [details_audience, details_tone, details_industries, details_regions,
    details_languages, details_pages, details_sitemap, details_selectedFeatures,
    details_userStories, details_techSuggestions, details_kpis,
    details_contentChecklist, details_milestones, details_personas,
    details_detectedFeatures, details_compliance, details_nonFunctional,
    details_clarifyingQuestions]
  refine ⟨addHints_ne_nil (audienceBase_ne_nil _) _,
    addHints_ne_nil (toneBase_ne_nil _) _,
    addHints_ne_nil (industriesBase_ne_nil _) _,
    addHints_ne_nil (regionsBase_ne_nil _) _,
    addHints_ne_nil (languagesBase_ne_nil _) _,
    pagesFinal_ne_nil _ _, ?_,
    selectedFeatures_ne_nil _ _,
    addHints_ne_nil (userStoriesPre_ne_nil _ _) _,
    addHints_ne_nil (techPre_ne_nil _ _) _,
    addHints_ne_nil (kpisByType_ne_nil _) _,
    addHints_ne_nil (by decide) _,
    addHints_ne_nil (by decide) _,
    addHints_ne_nil (by decide) _,
    nonFunctional_ne_nil _,
    clarifyingQuestions_ne_nil _ _,
    addHints_nodup (audienceBase_nodup _) _,
    addHints_nodup (toneBase_nodup _) _,
    addHints_nodup (featuresBase_nodup _) _,
    selectedFeatures_nodup _ _,
    addHints_nodup (industriesBase_nodup _) _,
    addHints_nodup (regionsBase_nodup _) _,
    addHints_nodup (languagesBase_nodup _) _,
    addHints_nodup (complianceBase_nodup _) _,
    pagesFinal_nodup _ _, ?_,
    addHints_nodup (userStoriesPre_nodup _ _) _,
    addHints_nodup (techPre_nodup _ _) _,
    addHints_nodup (kpisByType_nodup _) _,
    addHints_nodup (by decide) _,
    addHints_nodup (by decide) _,
    addHints_nodup (by decide) _,
    nonFunctional_nodup _,
    clarifyingQuestions_nodup _ _⟩
  · unfold sitemapOf
    simp [pagesFinal_ne_nil (normLower raw) h]
  · unfold sitemapOf
    exact List.Nodup.map
      (fun a b hab => congrArg SitemapEntry.name hab)
      (pagesFinal_nodup _ _)

/-- C6: `sitemap` is exactly `pages` mapped to `{name, path}` with
`path = slugify name` (one entry per page, in the same order, so the names
of the sitemap are exactly the pages), and the page name "Cart / Checkout"
derives the path "/cart-checkout". -/
theorem C6_sitemap (raw : String) (h : ImproveHints) :
    (improveIdea raw h).details.sitemap
        = (improveIdea raw h).details.pages.map (fun n => ⟨n, slugify n⟩) ∧
    (improveIdea raw h).details.sitemap.map SitemapEntry.name
        = (improveIdea raw h).details.pages ∧
    slugify "Cart / Checkout" = "/cart-checkout" := by
  refine ⟨rfl, ?_, by decide⟩
  rw [details_sitemap, details_pages]
  unfold sitemapOf
  rw [List.map_map]
  have hcomp : (SitemapEntry.name ∘ fun n => (⟨n, slugify n⟩ : SitemapEntry)) = fun n => n := rfl
  rw [hcomp]
  exact List.map_id' _

/-- C7 counterexample: an empty-string hint entry is not merged — the claim
that the merged set is a superset of all the hint's entries fails for the
hint `{audience: [""]}`. -/
theorem C7_counterexample :
    "" ∈ ["", "VIP"] ∧
    "" ∉ (improveIdea "x" { audience := ["", "VIP"] }).details.audience := by
  constructor
  · decide
  · decide

/-- C7 (amended): for every set-valued field, the classified entries stay
as a prefix of the merged list (hint entries are appended after them), every
NON-EMPTY hint entry is present in the merged list, and the merged list has
no duplicates.  (An empty-string hint entry is skipped, see C10.) -/
theorem C7_hint_union (raw : String) (h : ImproveHints) :
    mergeOk (audienceBase (normLower raw)) (improveIdea raw h).details.audience h.audience ∧
    mergeOk (toneBase (normLower raw)) (improveIdea raw h).details.tone h.tone ∧
    mergeOk (featuresBase (normLower raw)) (improveIdea raw h).details.detectedFeatures h.features ∧
    mergeOk (jsSetDedup (defaultFeaturesByType (siteTypeFinal (normLower raw) h) ++
        featuresBase (normLower raw)))
      (improveIdea raw h).details.selectedFeatures h.features ∧
    mergeOk (industriesBase (normLower raw)) (improveIdea raw h).details.industries h.industries ∧
    mergeOk (regionsBase (normLower raw)) (improveIdea raw h).details.regions h.regions ∧
    mergeOk (languagesBase (normLower raw)) (improveIdea raw h).details.languages h.languages ∧
    mergeOk (complianceBase (normLower raw)) (improveIdea raw h).details.compliance h.compliance ∧
    mergeOk (pagesPreHints (normLower raw) h) (improveIdea raw h).details.pages h.pages ∧
    mergeOk (userStoriesPre (normLower raw) h) (improveIdea raw h).details.userStories h.userStories ∧
    mergeOk (techPre (normLower raw) h) (improveIdea raw h).details.techSuggestions h.tech ∧
    mergeOk contentChecklistBase (improveIdea raw h).details.contentChecklist h.contentChecklist ∧
    mergeOk milestonesBase (improveIdea raw h).details.milestones h.milestones ∧
    mergeOk personasBase (improveIdea raw h).details.personas h.personas ∧
    mergeOk (kpisByType (siteTypeFinal (normLower raw) h)) (improveIdea raw h).details.kpis h.kpis := by
  rw [details_audience, details_tone, details_detectedFeatures, details_selectedFeatures,
    details_industries, details_regions, details_languages, details_compliance,
    details_pages, details_userStories, details_techSuggestions,
    details_contentChecklist, details_milestones, details_personas, details_kpis]
  refine ⟨mergeOk_addHints (audienceBase_nodup _) _,
    mergeOk_addHints (toneBase_nodup _) _,
    mergeOk_addHints (featuresBase_nodup _) _, ?_,
    mergeOk_addHints (industriesBase_nodup _) _,
    mergeOk_addHints (regionsBase_nodup _) _,
    mergeOk_addHints (languagesBase_nodup _) _,
    mergeOk_addHints (complianceBase_nodup _) _, ?_,
    mergeOk_addHints (userStoriesPre_nodup _ _) _,
    mergeOk_addHints (techPre_nodup _ _) _,
    mergeOk_addHints (by decide) _,
    mergeOk_addHints (by decide) _,
    mergeOk_addHints (by decide) _,
    mergeOk_addHints (kpisByType_nodup _) _⟩
  · refine ⟨?_, ?_, selectedFeatures_nodup _ _⟩
    · obtain ⟨t, htt⟩ := prefix_addHints (featuresBase (normLower raw)) h.features
      unfold selectedFeaturesOf featuresFinal
      rw [← htt, ← List.append_assoc,
        jsSetDedup_append
          (defaultFeaturesByType (siteTypeFinal (normLower raw) h) ++ featuresBase (normLower raw)) t]
      exact foldl_prefix_pushNew ..
    · intro x hx hne
      unfold selectedFeaturesOf
      rw [mem_jsSetDedup, List.mem_append]
      right
      exact mem_addHints.mpr (.inr ⟨hx, hne⟩)
  · refine ⟨?_, ?_, pagesFinal_nodup _ _⟩
    · unfold pagesFinal
      split
      · exact (prefix_addHints ..).trans ((prefix_pushNew ..).trans (prefix_pushNew ..))
      · exact prefix_addHints ..
    · intro x hx hne
      have h1 : x ∈ addHints (pagesPreHints (normLower raw) h) h.pages :=
        mem_addHints.mpr (.inr ⟨hx, hne⟩)
      unfold pagesFinal
      split
      · exact mem_of_mem_pushNew (mem_of_mem_pushNew h1)
      · exact h1

/-- C7 witness: the amended theorem applied at a concrete input, all
hypotheses discharged. -/
theorem C7_witness :
    "VIP" ∈ (improveIdea "x" { audience := ["VIP"] }).details.audience :=
  ((C7_hint_union "x" { audience := ["VIP"] }).1).2.1 "VIP" (by decide) (by decide)

/-- C8 counterexample: `processingMs` is the difference of two `Date.now()`
wall-clock samples, not a function of `(text, hints)`; two invocations on
the same input whose clock readings differ report different
processing-time measurements, so the output is not byte-identical. -/
theorem C8_counterexample :
    (improveIdeaTimed "x" noHints 0 0).processingMs
      ≠ (improveIdeaTimed "x" noHints 0 1).processingMs := by
  decide

/-- C8 (amended): for a fixed `(text, hints)` pair the improved-prompt
text and the whole feature-detail object (including the blueprint text
when projectMode holds) are identical across invocations regardless of the
clock; the reported `processingMs` equals the elapsed clock difference and
coincides between two invocations exactly when the elapsed times do. -/
theorem C8_determinism (raw : String) (h : ImproveHints) (t0 t1 u0 u1 : Int) :
    (improveIdeaTimed raw h t0 t1).improved = (improveIdeaTimed raw h u0 u1).improved ∧
    (improveIdeaTimed raw h t0 t1).details = (improveIdeaTimed raw h u0 u1).details ∧
    ((improveIdeaTimed raw h t0 t1).processingMs = (improveIdeaTimed raw h u0 u1).processingMs
      ↔ t1 - t0 = u1 - u0) :=
  ⟨rfl, rfl, Iff.rfl⟩

/-- C9 counterexample: `detectedFeatures` is not a function of the text
alone — the source pushes the hinted features into the `features` array
(lines 215–219) before exposing it as `detectedFeatures` (line 745): with
empty input text and the hint `{features:["Loyalty points"]}`, the merged
`detectedFeatures` contains exactly the hint-supplied entry. -/
theorem C9_counterexample :
    (improveIdea "" { features := ["Loyalty points"] }).details.detectedFeatures
      = ["Loyalty points"] := by
  rfl

/-- C9 (amended): `detectedFeatures` is the list of feature labels whose
patterns match the lower-cased text, with the non-empty hinted features
appended after them (deduplicated); `selectedFeatures` is the deduplicated
concatenation of the merged site type's default feature list with that
list, so as a set it is the union of the defaults, the pattern-matched
labels and the non-empty hinted features, with insertion order preserved
and no duplicates. -/
theorem C9_features (raw : String) (h : ImproveHints) :
    (improveIdea raw h).details.detectedFeatures
        = addHints (featuresBase (normLower raw)) h.features ∧
    featuresBase (normLower raw) <+: (improveIdea raw h).details.detectedFeatures ∧
    (∀ x : String,
      x ∈ (improveIdea raw h).details.selectedFeatures ↔
        (x ∈ defaultFeaturesByType ((improveIdea raw h).details.siteType) ∨
         x ∈ featuresBase (normLower raw) ∨ (x ∈ h.features ∧ x ≠ ""))) ∧
    (improveIdea raw h).details.selectedFeatures.Nodup := by
  refine ⟨rfl, prefix_addHints .., ?_, selectedFeatures_nodup _ _⟩
  intro x
  rw [details_selectedFeatures, details_siteType]
  unfold selectedFeaturesOf featuresFinal
  rw [mem_jsSetDedup, List.mem_append, mem_addHints]

/-- C10: an empty-string entry inside any set-valued hint array is
silently skipped — the empty string never occurs in any merged set-valued
field — and an empty-string `currency` hint is ignored, leaving the
classified currency. -/
theorem C10_empty_hints_skipped (raw : String) (h : ImproveHints) :
    "" ∉ (improveIdea raw h).details.audience ∧
    "" ∉ (improveIdea raw h).details.tone ∧
    "" ∉ (improveIdea raw h).details.detectedFeatures ∧
    "" ∉ (improveIdea raw h).details.selectedFeatures ∧
    "" ∉ (improveIdea raw h).details.industries ∧
    "" ∉ (improveIdea raw h).details.regions ∧
    "" ∉ (improveIdea raw h).details.languages ∧
    "" ∉ (improveIdea raw h).details.compliance ∧
    "" ∉ (improveIdea raw h).details.pages ∧
    "" ∉ (improveIdea raw h).details.userStories ∧
    "" ∉ (improveIdea raw h).details.techSuggestions ∧
    "" ∉ (improveIdea raw h).details.kpis ∧
    "" ∉ (improveIdea raw h).details.contentChecklist ∧
    "" ∉ (improveIdea raw h).details.milestones ∧
    "" ∉ (improveIdea raw h).details.personas ∧
    (h.currency = some "" →
      (improveIdea raw h).details.currency = currencyBase (normLower raw)) := by
  rw [details_audience, details_tone, details_detectedFeatures, details_selectedFeatures,
    details_industries, details_regions, details_languages, details_compliance,
    details_pages, details_userStories, details_techSuggestions, details_kpis,
    details_contentChecklist, details_milestones, details_personas, details_currency]
  refine ⟨addHints_no_empty (audienceBase_no_empty _) _,
    addHints_no_empty (toneBase_no_empty _) _,
    featuresFinal_no_empty _ _,
    selectedFeatures_no_empty _ _,
    addHints_no_empty (industriesBase_no_empty _) _,
    addHints_no_empty (regionsBase_no_empty _) _,
    addHints_no_empty (languagesBase_no_empty _) _,
    addHints_no_empty (complianceBase_no_empty _) _,
    pagesFinal_no_empty _ _,
    addHints_no_empty (userStoriesPre_no_empty _ _) _,
    addHints_no_empty (techPre_no_empty _ _) _,
    addHints_no_empty (kpisByType_no_empty _) _,
    addHints_no_empty (by decide) _,
    addHints_no_empty (by decide) _,
    addHints_no_empty (by decide) _, ?_⟩
  intro hc
  unfold currencyFinal
  rw [hc]
  rfl

/-- C10 witness: the theorem applied at a concrete input with an
empty-string currency hint; the classified currency ("USD", from "dollar")
stands. -/
theorem C10_witness :
    (improveIdea "dollar" { currency := some "" }).details.currency = "USD" := by
  rw [(C10_empty_hints_skipped "dollar"
      { currency := some "" }).2.2.2.2.2.2.2.2.2.2.2.2.2.2.2 rfl]
  decide

end TaskStunning
